import Mathlib

/-!
# ip2unix preload library (`src/preload.cc`)

A shallow embedding of the interposition layer: the socket table, the rule
matcher, the path formatter, the socket converter and the shims for `socket`,
`setsockopt`, `bind`, `connect`, `listen`, `accept`, `accept4`, `getpeername`,
`getsockname` and `close`.  The build with `SOCKET_ACTIVATION` defined is
embedded; a rule list in which no rule requests socket activation behaves as
the build without it.

Conventions.  C `int` values are `Int`.  A `std::string` is a `String` whose
characters stand for bytes.  `in_addr` and `in_port_t` values are kept as
their bytes in memory order (network byte order), so no host endianness is
assumed.  Everything outside the file (kernel, C library, systemd, the rule
parser) is the environment: `Env` holds its pure functions and inputs,
`Kernel` its state.
-/

namespace Ip2unix

/-! ## Platform constants (Linux values of the C headers) -/

def AF_UNIX : Int := 1
def AF_INET : Int := 2
def AF_INET6 : Int := 10
def SOCK_STREAM : Int := 1
def SOCK_DGRAM : Int := 2
def SOCK_RAW : Int := 3
def SOCK_SEQPACKET : Int := 5
def SOL_SOCKET : Int := 1
def SD_LISTEN_FDS_START : Int := 3
/-- Size of `struct sockaddr_in`. -/
def sizeof_sockaddr_in : Int := 16
/-- Size of the `sun_path` member of `struct sockaddr_un`. -/
def sizeof_sun_path : Nat := 108
/-- Size of `struct sockaddr_un`. -/
def sizeof_sockaddr_un : Int := 110

/-! ## Rules (`rules.hh`) -/

inductive RuleDir where
  | INCOMING
  | OUTGOING
deriving DecidableEq, Repr

inductive RuleIpType where
  | TCP
  | UDP
deriving DecidableEq, Repr

/-- Modelled from the spec: `rules.hh`, which declares `UdsmapRule`, is not
among the sources; the fields are those of the rule record of the data model
and those the code reads (`direction`, `type`, `address`, `port`,
`socket_path`, `socket_activation`, `fd_name`). -/
structure UdsmapRule where
  direction : RuleDir
  type : Option RuleIpType := none
  address : Option String := none
  port : Option Nat := none
  socket_path : Option String := none
  socket_activation : Bool := false
  fd_name : Option String := none
deriving DecidableEq, Repr

/-! ## Data model -/

structure SockoptEntry where
  level : Int
  optname : Int
  optval : List Nat
deriving DecidableEq, Repr

/-- The record `SocketInfo`.  `rule` is a pointer into the immutable rule
vector in the source; it is only ever dereferenced, so it is kept as the rule
it points to.  `sockopts` is the queue, front first. -/
structure SocketInfo where
  socktype : Int := 0
  protocol : Int := 0
  addr : List Nat := [0, 0, 0, 0]
  port : List Nat := [0, 0]
  is_converted : Bool := false
  rule : Option UdsmapRule := none
  sockopts : List SockoptEntry := []
  sockpath : Option String := none
deriving DecidableEq, Repr

/-- A `std::shared_ptr<SocketInfo>`: the index of the record in `State.heap`. -/
abbrev SocketInfoPtr := Nat

/-- The variant `SocketEntry`: either the record itself (`owner`, the
alternative `SocketInfoPtr`) or `SocketChildren` with its `parent`. -/
inductive SocketEntry where
  | owner (si : SocketInfoPtr)
  | children (parent : SocketInfoPtr)
deriving DecidableEq, Repr

/-- A socket address as the shims and the real calls see it: either the raw
bytes a caller passed (`sa_family` and the bytes after it, which for
`sockaddr_in` are port(2) addr(4) and for `sockaddr_in6` are port(2)
flowinfo(4) addr(16) scope(4)), or a `sockaddr_un` holding the C string in
`sun_path`. -/
inductive sockaddr where
  | raw (sa_family : Int) (sa_data : List Nat)
  | un (sun_path : String)
deriving DecidableEq, Repr

def sockaddr.sa_family : sockaddr → Int
  | .raw f _ => f
  | .un _ => AF_UNIX

def sockaddr.sa_data : sockaddr → List Nat
  | .raw _ d => d
  | .un p => p.toList.map Char.toNat

/-- The bytes of the member `sin_port` of the address seen as `sockaddr_in`. -/
def sockaddr.sin_port (a : sockaddr) : List Nat := a.sa_data.take 2

/-- The bytes of the member `sin_addr` of the address seen as `sockaddr_in`. -/
def sockaddr.sin_addr (a : sockaddr) : List Nat := (a.sa_data.drop 2).take 4

/-- The bytes of the member `sin6_addr` of the address seen as `sockaddr_in6`. -/
def sockaddr.sin6_addr (a : sockaddr) : List Nat := (a.sa_data.drop 6).take 16

/-- Host value of a 16-bit quantity stored in network byte order. -/
def ntohs (b : List Nat) : Nat := b.getD 0 0 * 256 + b.getD 1 0

/-- Network byte order of a 16-bit host value. -/
def htons (n : Nat) : List Nat := [n / 256 % 256, n % 256]

/-! ## Path formatter -/

/-- The text `%t` expands to. -/
def sotype_text (sotype : Option RuleIpType) : String :=
  if sotype = some RuleIpType.TCP then "tcp"
  else if sotype = some RuleIpType.UDP then "udp"
  else "unknown"

/-- The `for` loop of `format_sockpath`: `i` is the loop index, `out` the
output so far, and the first argument bounds the iterations still to run
(every iteration advances `i`, so the length of the template is enough). -/
def format_sockpath_loop (sockpath : List Char) (addr : String) (port : Nat)
    (sotype : Option RuleIpType) : Nat → Nat → List Char → List Char
  | 0, _, out => out
  | n + 1, i, out =>
    if i < sockpath.length then
      if sockpath.getD i ' ' = '%' ∧ i + 1 < sockpath.length then
        if sockpath.getD (i + 1) ' ' = '%' then
          format_sockpath_loop sockpath addr port sotype n (i + 2) (out ++ ['%'])
        else if sockpath.getD (i + 1) ' ' = 'a' then
          format_sockpath_loop sockpath addr port sotype n (i + 2) (out ++ addr.toList)
        else if sockpath.getD (i + 1) ' ' = 'p' then
          format_sockpath_loop sockpath addr port sotype n (i + 2)
            (out ++ (toString port).toList)
        else if sockpath.getD (i + 1) ' ' = 't' then
          format_sockpath_loop sockpath addr port sotype n (i + 2)
            (out ++ (sotype_text sotype).toList)
        else
          format_sockpath_loop sockpath addr port sotype n (i + 1)
            (out ++ [sockpath.getD i ' '])
      else
        format_sockpath_loop sockpath addr port sotype n (i + 1)
          (out ++ [sockpath.getD i ' '])
    else out

def format_sockpath (sockpath : String) (addr : String) (port : Nat)
    (sotype : Option RuleIpType) : String :=
  String.mk (format_sockpath_loop sockpath.toList addr port sotype
    sockpath.toList.length 0 [])

/-- The transport text of the specification: `tcp`, `udp` or `unknown`. -/
def transport_text : Option RuleIpType → String
  | some RuleIpType.TCP => "tcp"
  | some RuleIpType.UDP => "udp"
  | none => "unknown"

/-- The reference expansion of the path formatter as the specification words
it: left to right, `%%` gives `%`, `%a` the address text, `%p` the decimal
port, `%t` the transport text, any other `%x` both characters, a final `%`
itself, and every other character itself. -/
def expand_reference (addr : String) (port : Nat) (sotype : Option RuleIpType) :
    List Char → List Char
  | [] => []
  | [c] => [c]
  | c :: x :: rest =>
    if c = '%' then
      if x = '%' then '%' :: expand_reference addr port sotype rest
      else if x = 'a' then addr.toList ++ expand_reference addr port sotype rest
      else if x = 'p' then (toString port).toList ++ expand_reference addr port sotype rest
      else if x = 't' then
        (transport_text sotype).toList ++ expand_reference addr port sotype rest
      else '%' :: x :: expand_reference addr port sotype rest
    else c :: expand_reference addr port sotype (x :: rest)

/-! ## Rule matcher -/

/-- The external `inet_ntop`, `getenv("IP2UNIX_RULE_FILE")`, `parse_rules`
and `sd_listen_fds_with_names`.  `inet_ntop af src` receives the address
family and the bytes it reads at the pointer it is given.
`sd_listen_fds_with_names` is `none` for a negative count and otherwise the
names of the passed descriptors. -/
structure Env where
  inet_ntop : Int → List Nat → Option String
  IP2UNIX_RULE_FILE : Option String
  parse_rules : String → Option (List UdsmapRule)
  sd_listen_fds_with_names : Option (List String)

/-- The number of bytes `inet_ntop` reads at its source pointer: a
`struct in6_addr` for `AF_INET6`, a `struct in_addr` otherwise. -/
def in_addr_size (af : Int) : Nat := if af = AF_INET6 then 16 else 4

/-- The source passes `&addr->sin_addr` of the address seen as `sockaddr_in`,
whatever the family: `inet_ntop` reads from offset 2 of `sa_data` on. -/
def get_addr_str (env : Env) (addr : sockaddr) : Option String :=
  env.inet_ntop addr.sa_family ((addr.sa_data.drop 2).take (in_addr_size addr.sa_family))

def match_sockaddr_in (env : Env) (addr : sockaddr) (rule : UdsmapRule) : Bool :=
  if rule.address.isSome ∧ get_addr_str env addr ≠ rule.address then false
  else if rule.port.isSome ∧ some (ntohs addr.sin_port) ≠ rule.port then false
  else true

def get_sotype (type : Int) : Option RuleIpType :=
  if Int.land type (Int.lor SOCK_STREAM SOCK_DGRAM) = SOCK_STREAM then some RuleIpType.TCP
  else if Int.land type (Int.lor SOCK_STREAM SOCK_DGRAM) = SOCK_DGRAM then some RuleIpType.UDP
  else none

def match_sotype (type : Int) (rule : UdsmapRule) : Bool :=
  !rule.type.isSome || get_sotype type = rule.type

/-! ## Environment state: the kernel

Only what the code can observe is kept: which descriptors are open and which
open file each refers to, and the calls made so far.  The outcome of a
fallible call is taken from `replies`: each such call consumes the next
reply (`0` when none is left); a negative reply makes the call fail with
`-1`, and for `fcntl(F_GETFD)` and `fcntl(F_GETFL)` a nonnegative reply is
the flag word returned.  A call on a descriptor that is not open fails.
`close` of an open descriptor releases it and returns `0`.  What the code
writes to the standard error stream (`perror`, `fputs`, `fprintf`) is not
recorded. -/

/-- One call made to the C library, with its arguments and result. -/
inductive Syscall where
  | socket (domain type protocol ret : Int)
  | setsockopt (fd level optname : Int) (optval : List Nat) (ret : Int)
  | bind (fd : Int) (addr : sockaddr) (addrlen ret : Int)
  | connect (fd : Int) (addr : sockaddr) (addrlen ret : Int)
  | listen (fd backlog ret : Int)
  | accept4 (fd flags ret : Int)
  | getpeername (fd ret : Int)
  | getsockname (fd ret : Int)
  | close (fd ret : Int)
  | fcntl_getfd (fd ret : Int)
  | fcntl_getfl (fd ret : Int)
  | fcntl_setfd (fd arg ret : Int)
  | fcntl_setfl (fd arg ret : Int)
  | dup2 (oldfd newfd ret : Int)
  | unlink (path : String)
deriving DecidableEq, Repr

structure Kernel where
  /-- Open descriptors, each with the identity of the open file it refers to. -/
  fds : List (Int × Nat) := []
  /-- Number of open files created so far; the next one gets this identity. -/
  files : Nat := 0
  replies : List Int := []
  /-- The address and length the kernel reports in `accept4`, `getpeername`
  and `getsockname`. -/
  kaddr : sockaddr × Int := (sockaddr.un "", 2)
  trace : List Syscall := []
deriving DecidableEq, Repr

def Kernel.is_open (k : Kernel) (fd : Int) : Bool := (k.fds.lookup fd).isSome

/-- The lowest descriptor number that is not open. -/
def Kernel.lowest_free (k : Kernel) : Int :=
  Int.ofNat (((List.range (k.fds.length + 1)).find? (fun n => !k.is_open (Int.ofNat n))).getD
    k.fds.length)

def Kernel.reply (k : Kernel) : Int := k.replies.headD 0

def Kernel.log (k : Kernel) (c : Syscall) : Kernel := { k with trace := k.trace ++ [c] }

/-- Result of a call that returns `0` or `-1` and changes nothing else. -/
def Kernel.status (k : Kernel) (fd : Int) : Int :=
  if k.reply < 0 ∨ !k.is_open fd then -1 else 0

def Kernel.socket (k : Kernel) (domain type protocol : Int) : Int × Kernel :=
  if k.reply < 0 then
    (-1, { k with replies := k.replies.tail, trace := k.trace ++ [.socket domain type protocol (-1)] })
  else
    (k.lowest_free,
      { k with fds := (k.lowest_free, k.files) :: k.fds, files := k.files + 1,
               replies := k.replies.tail,
               trace := k.trace ++ [.socket domain type protocol k.lowest_free] })

def Kernel.setsockopt (k : Kernel) (fd level optname : Int) (optval : List Nat) : Int × Kernel :=
  (k.status fd, { k with replies := k.replies.tail,
                         trace := k.trace ++ [.setsockopt fd level optname optval (k.status fd)] })

def Kernel.bind (k : Kernel) (fd : Int) (addr : sockaddr) (addrlen : Int) : Int × Kernel :=
  (k.status fd, { k with replies := k.replies.tail,
                         trace := k.trace ++ [.bind fd addr addrlen (k.status fd)] })

def Kernel.connect (k : Kernel) (fd : Int) (addr : sockaddr) (addrlen : Int) : Int × Kernel :=
  (k.status fd, { k with replies := k.replies.tail,
                         trace := k.trace ++ [.connect fd addr addrlen (k.status fd)] })

def Kernel.listen (k : Kernel) (fd backlog : Int) : Int × Kernel :=
  (k.status fd, { k with replies := k.replies.tail,
                         trace := k.trace ++ [.listen fd backlog (k.status fd)] })

/-- On success the new descriptor is returned and the peer address written
to the caller's buffer `buf`; on failure the buffer is left as it is. -/
def Kernel.accept4 (k : Kernel) (fd : Int) (buf : sockaddr × Int) (flags : Int) :
    (Int × (sockaddr × Int)) × Kernel :=
  if k.reply < 0 ∨ !k.is_open fd then
    ((-1, buf), { k with replies := k.replies.tail, trace := k.trace ++ [.accept4 fd flags (-1)] })
  else
    ((k.lowest_free, k.kaddr),
      { k with fds := (k.lowest_free, k.files) :: k.fds, files := k.files + 1,
               replies := k.replies.tail,
               trace := k.trace ++ [.accept4 fd flags k.lowest_free] })

def Kernel.getpeername (k : Kernel) (fd : Int) (buf : sockaddr × Int) :
    (Int × (sockaddr × Int)) × Kernel :=
  ((k.status fd, if k.status fd = 0 then k.kaddr else buf),
    { k with replies := k.replies.tail, trace := k.trace ++ [.getpeername fd (k.status fd)] })

def Kernel.getsockname (k : Kernel) (fd : Int) (buf : sockaddr × Int) :
    (Int × (sockaddr × Int)) × Kernel :=
  ((k.status fd, if k.status fd = 0 then k.kaddr else buf),
    { k with replies := k.replies.tail, trace := k.trace ++ [.getsockname fd (k.status fd)] })

def Kernel.close (k : Kernel) (fd : Int) : Int × Kernel :=
  if k.is_open fd then
    (0, { k with fds := k.fds.filter (fun e => e.1 != fd), trace := k.trace ++ [.close fd 0] })
  else
    (-1, { k with trace := k.trace ++ [.close fd (-1)] })

def Kernel.getflags (k : Kernel) (fd : Int) : Int :=
  if k.reply < 0 ∨ !k.is_open fd then -1 else k.reply

def Kernel.fcntl_getfd (k : Kernel) (fd : Int) : Int × Kernel :=
  (k.getflags fd, { k with replies := k.replies.tail,
                           trace := k.trace ++ [.fcntl_getfd fd (k.getflags fd)] })

def Kernel.fcntl_getfl (k : Kernel) (fd : Int) : Int × Kernel :=
  (k.getflags fd, { k with replies := k.replies.tail,
                           trace := k.trace ++ [.fcntl_getfl fd (k.getflags fd)] })

def Kernel.fcntl_setfd (k : Kernel) (fd arg : Int) : Int × Kernel :=
  (k.status fd, { k with replies := k.replies.tail,
                         trace := k.trace ++ [.fcntl_setfd fd arg (k.status fd)] })

def Kernel.fcntl_setfl (k : Kernel) (fd arg : Int) : Int × Kernel :=
  (k.status fd, { k with replies := k.replies.tail,
                         trace := k.trace ++ [.fcntl_setfl fd arg (k.status fd)] })

/-- On success `newfd` refers to the open file of `oldfd`; whatever `newfd`
referred to before is closed. -/
def Kernel.dup2 (k : Kernel) (oldfd newfd : Int) : Int × Kernel :=
  match k.fds.lookup oldfd with
  | some file =>
    if k.reply < 0 ∨ newfd < 0 then
      (-1, { k with replies := k.replies.tail, trace := k.trace ++ [.dup2 oldfd newfd (-1)] })
    else
      (newfd, { k with fds := (newfd, file) :: k.fds.filter (fun e => e.1 != newfd),
                       replies := k.replies.tail,
                       trace := k.trace ++ [.dup2 oldfd newfd newfd] })
  | none =>
    (-1, { k with replies := k.replies.tail, trace := k.trace ++ [.dup2 oldfd newfd (-1)] })

/-- The result of `unlink` is ignored by the code and the file system is not
modelled: the call is only recorded. -/
def Kernel.unlink (k : Kernel) (path : String) : Kernel := k.log (.unlink path)

/-! ## Program state -/

/-- The globals of `preload.cc`, the objects held through `shared_ptr`, the
function-local statics of `get_systemd_fd_for_rule` and the kernel.  A mutex
is `true` while it is held.  `g_dlsym_mutex` is taken and released inside
every `real::` call and is not kept. -/
structure State where
  g_active_sockets : List (Int × SocketEntry) := []
  heap : List SocketInfo := []
  g_rules : Option (List UdsmapRule) := none
  g_sockinfo_mutex : Bool := false
  g_rules_mutex : Bool := false
  names : List (String × Int) := []
  fds : List Int := []
  fetch_done : Bool := false
  kernel : Kernel := {}
deriving DecidableEq, Repr

/-- Ways in which a call does not return to its caller. -/
inductive Halt where
  | exit
  | abort
  | deadlock
  | segv
deriving DecidableEq, Repr

inductive Res (α : Type) where
  | ok (a : α) (s : State)
  | halt (h : Halt) (s : State)
deriving DecidableEq, Repr

/-- A computation on the program state. -/
def M (α : Type) : Type := State → Res α

def M.pure {α : Type} (a : α) : M α := fun s => Res.ok a s

def M.bind {α β : Type} (m : M α) (f : α → M β) : M β := fun s =>
  match m s with
  | Res.ok a s' => f a s'
  | Res.halt h s' => Res.halt h s'

instance : Monad M where
  pure := M.pure
  bind := M.bind

def halt {α : Type} (h : Halt) : M α := fun s => Res.halt h s

/-- Run a kernel call on the kernel part of the state. -/
def sys {α : Type} (f : Kernel → α × Kernel) : M α := fun s =>
  Res.ok (f s.kernel).1 { s with kernel := (f s.kernel).2 }

def g_sockinfo_mutex_lock : M Unit := fun s =>
  if s.g_sockinfo_mutex then Res.halt Halt.deadlock s
  else Res.ok () { s with g_sockinfo_mutex := true }

def g_sockinfo_mutex_unlock : M Unit := fun s =>
  Res.ok () { s with g_sockinfo_mutex := false }

def g_rules_mutex_lock : M Unit := fun s =>
  if s.g_rules_mutex then Res.halt Halt.deadlock s
  else Res.ok () { s with g_rules_mutex := true }

def g_rules_mutex_unlock : M Unit := fun s =>
  Res.ok () { s with g_rules_mutex := false }

/-- The expression `*p` for a `SocketInfoPtr`. -/
def deref (p : SocketInfoPtr) : M SocketInfo := fun s =>
  match s.heap[p]? with
  | some si => Res.ok si s
  | none => Res.halt Halt.segv s

/-- An assignment through a `SocketInfoPtr`. -/
def update (p : SocketInfoPtr) (f : SocketInfo → SocketInfo) : M Unit := fun s =>
  match s.heap[p]? with
  | some si => Res.ok () { s with heap := s.heap.set p (f si) }
  | none => Res.halt Halt.segv s

def make_shared (si : SocketInfo) : M SocketInfoPtr := fun s =>
  Res.ok s.heap.length { s with heap := s.heap ++ [si] }

/-- The statement `g_active_sockets[fd] = e`. -/
def g_active_sockets_assign (fd : Int) (e : SocketEntry) : M Unit := fun s =>
  Res.ok () { s with g_active_sockets := (fd, e) :: s.g_active_sockets.filter (fun x => x.1 != fd) }

def g_active_sockets_erase (fd : Int) : M Unit := fun s =>
  Res.ok () { s with g_active_sockets := s.g_active_sockets.filter (fun x => x.1 != fd) }

def get_active_socket (fd : Int) : M (Option SocketEntry) := fun s =>
  Res.ok (s.g_active_sockets.lookup fd) s

def get_parent (se : SocketEntry) : SocketInfoPtr :=
  match se with
  | .owner si => si
  | .children parent => parent

def is_children (se : SocketEntry) : Bool :=
  match se with
  | .owner _ => false
  | .children _ => true

/-! ## The real calls (`namespace real`) -/

namespace real

def socket (domain type protocol : Int) : M Int := sys (·.socket domain type protocol)
def setsockopt (fd level optname : Int) (optval : List Nat) : M Int :=
  sys (·.setsockopt fd level optname optval)
def bind (fd : Int) (addr : sockaddr) (addrlen : Int) : M Int := sys (·.bind fd addr addrlen)
def connect (fd : Int) (addr : sockaddr) (addrlen : Int) : M Int := sys (·.connect fd addr addrlen)
def listen (fd backlog : Int) : M Int := sys (·.listen fd backlog)
def accept4 (fd : Int) (buf : sockaddr × Int) (flags : Int) : M (Int × (sockaddr × Int)) :=
  sys (·.accept4 fd buf flags)
def getpeername (fd : Int) (buf : sockaddr × Int) : M (Int × (sockaddr × Int)) :=
  sys (·.getpeername fd buf)
def getsockname (fd : Int) (buf : sockaddr × Int) : M (Int × (sockaddr × Int)) :=
  sys (·.getsockname fd buf)
def close (fd : Int) : M Int := sys (·.close fd)

end real

def fcntl_getfd (fd : Int) : M Int := sys (·.fcntl_getfd fd)
def fcntl_getfl (fd : Int) : M Int := sys (·.fcntl_getfl fd)
def fcntl_setfd (fd arg : Int) : M Int := sys (·.fcntl_setfd fd arg)
def fcntl_setfl (fd arg : Int) : M Int := sys (·.fcntl_setfl fd arg)
def dup2 (oldfd newfd : Int) : M Int := sys (·.dup2 oldfd newfd)
def unlink (path : String) : M Unit := fun s => Res.ok () { s with kernel := s.kernel.unlink path }

/-! ## The code of `preload.cc` -/

def init_rules (env : Env) : M Unit := fun s =>
  if s.g_rules.isSome then Res.ok () s
  else
    match env.IP2UNIX_RULE_FILE with
    | none => Res.halt Halt.exit s
    | some rule_file =>
      match env.parse_rules rule_file with
      | none => Res.halt Halt.exit s
      | some rules => Res.ok () { s with g_rules := some rules }

def is_socket_activated (fd : Int) : M Bool := do
  let found ← get_active_socket fd
  match found with
  | none => pure false
  | some se => do
    let si ← deref (get_parent se)
    match si.rule with
    | none => pure false
    | some rule => pure rule.socket_activation

def real_bind_connect (dir : RuleDir) (fd : Int) (addr : sockaddr) (addrlen : Int) : M Int :=
  match dir with
  | RuleDir.INCOMING => real.bind fd addr addrlen
  | RuleDir.OUTGOING => real.connect fd addr addrlen

def socket (domain type protocol : Int) : M Int := do
  let fd ← real.socket domain type protocol
  if domain = AF_INET ∨ domain = AF_INET6 then do
    g_sockinfo_mutex_lock
    let si ← make_shared
      { socktype := type, protocol := protocol, addr := [0, 0, 0, 0], port := [0, 0] }
    g_active_sockets_assign fd (SocketEntry.owner si)
    g_sockinfo_mutex_unlock
    pure fd
  else
    pure fd

/-- The value `optval` stands for the `optlen` bytes at the pointer. -/
def setsockopt (sockfd level optname : Int) (optval : List Nat) : M Int := do
  g_sockinfo_mutex_lock
  let si ← get_active_socket sockfd
  match si with
  | some se =>
    if level = SOL_SOCKET then do
      let ret ← real.setsockopt sockfd level optname optval
      if ret = 0 then do
        update (get_parent se) (fun r =>
          { r with sockopts := r.sockopts ++ [{ level := level, optname := optname, optval := optval }] })
        g_sockinfo_mutex_unlock
        pure ret
      else do
        g_sockinfo_mutex_unlock
        pure ret
    else do
      g_sockinfo_mutex_unlock
      real.setsockopt sockfd level optname optval
  | none => do
    g_sockinfo_mutex_unlock
    real.setsockopt sockfd level optname optval

/-- The `while` loop of `set_cached_sockopts` over the queue of `sockinfo`;
the list is the content of the queue when the loop is entered, and every
successful call pops the front of the queue. -/
def replay_sockopts (sockinfo : SocketInfoPtr) (new_sockfd : Int) : List SockoptEntry → M Bool
  | [] => pure true
  | entry :: rest => do
    let r ← real.setsockopt new_sockfd entry.level entry.optname entry.optval
    if r = -1 then pure false
    else do
      update sockinfo (fun si => { si with sockopts := si.sockopts.tail })
      replay_sockopts sockinfo new_sockfd rest

def set_cached_sockopts (old_sockfd new_sockfd : Int) : M Bool := do
  let fdflags ← fcntl_getfd old_sockfd
  if fdflags = -1 then pure false
  else do
    let fdstatus ← fcntl_getfl old_sockfd
    if fdstatus = -1 then pure false
    else do
      let r1 ← fcntl_setfd new_sockfd fdflags
      if r1 = -1 then pure false
      else do
        let r2 ← fcntl_setfl new_sockfd fdstatus
        if r2 = -1 then pure false
        else do
          let si ← get_active_socket old_sockfd
          match si with
          | some se => do
            let sockinfo ← deref (get_parent se)
            replay_sockopts (get_parent se) new_sockfd sockinfo.sockopts
          | none => pure true

/-- The expression `g_active_sockets[old_sockfd]` default-constructs a null
`SocketInfoPtr` when the key is absent, which the next line dereferences. -/
def sock_make_unix (old_sockfd : Int) : M Bool := do
  let found ← get_active_socket old_sockfd
  match found with
  | none => halt Halt.segv
  | some se => do
    let si ← deref (get_parent se)
    if si.is_converted then pure true
    else do
      let sockfd ← real.socket AF_UNIX si.socktype 0
      if sockfd = -1 then pure false
      else do
        let copied ← set_cached_sockopts old_sockfd sockfd
        if !copied then do
          let _ ← real.close sockfd
          pure false
        else do
          let r ← dup2 sockfd old_sockfd
          if r = -1 then do
            let _ ← real.close sockfd
            pure false
          else do
            update (get_parent se) (fun r => { r with is_converted := true })
            pure true

/-- The `for` loop over `raw_names` in `get_systemd_fd_for_rule`; `i` is the
index of the first name of the list. -/
def fetch_names (i : Int) : List String → List (String × Int) × List Int →
    List (String × Int) × List Int
  | [], acc => acc
  | name :: rest, (names, fds) =>
    if name.isEmpty ∨ name = "unknown" ∨ name = "stored" then
      fetch_names (i + 1) rest (names, fds ++ [SD_LISTEN_FDS_START + i])
    else
      fetch_names (i + 1) rest
        ((name, SD_LISTEN_FDS_START + i) :: names.filter (fun x => x.1 != name), fds)

def get_systemd_fd_for_rule (env : Env) (rule : UdsmapRule) : M Int := fun s =>
  let fetched : Res Unit :=
    if s.fetch_done then Res.ok () s
    else
      match env.sd_listen_fds_with_names with
      | none => Res.halt Halt.abort s
      | some raw_names =>
        if raw_names.length = 0 then Res.halt Halt.abort s
        else
          Res.ok () { s with names := (fetch_names 0 raw_names (s.names, s.fds)).1,
                             fds := (fetch_names 0 raw_names (s.names, s.fds)).2,
                             fetch_done := true }
  match fetched with
  | Res.halt h s1 => Res.halt h s1
  | Res.ok _ s1 =>
    match rule.fd_name with
    | some fd_name =>
      match s1.names.lookup fd_name with
      | none => Res.halt Halt.abort s1
      | some fd => Res.ok fd s1
    | none =>
      match s1.fds with
      | [] => Res.halt Halt.abort s1
      | fd :: rest => Res.ok fd { s1 with fds := rest }

def listen (sockfd backlog : Int) : M Int := do
  g_sockinfo_mutex_lock
  let activated ← is_socket_activated sockfd
  if !activated then do
    let ret ← real.listen sockfd backlog
    g_sockinfo_mutex_unlock
    pure ret
  else do
    g_sockinfo_mutex_unlock
    pure 0

/-- The C string `s.c_str()`: the characters before the first NUL. -/
def c_str (s : String) : String := String.mk (s.toList.takeWhile (fun c => c != Char.ofNat 0))

/-- The content of `ua.sun_path` after `memset` and
`strncpy(ua.sun_path, sockpath.c_str(), sizeof(ua.sun_path) - 1)`. -/
def sun_path_of (sockpath : String) : String :=
  String.mk ((c_str sockpath).toList.take (sizeof_sun_path - 1))

/-- The body of the `for` loop of `handle_bind_connect` over the rules that
are still to be visited; leaving the loop at its end runs the code after it. -/
def handle_bind_connect_loop (env : Env) (dir : RuleDir) (fd : Int) (addr : sockaddr)
    (addrlen : Int) (si : SocketInfoPtr) : List UdsmapRule → M Int
  | [] => do
    g_rules_mutex_unlock
    g_sockinfo_mutex_unlock
    real_bind_connect dir fd addr addrlen
  | rule :: rest =>
    if rule.direction ≠ dir then
      handle_bind_connect_loop env dir fd addr addrlen si rest
    else if !match_sockaddr_in env addr rule then
      handle_bind_connect_loop env dir fd addr addrlen si rest
    else do
      let info ← deref si
      if !match_sotype info.socktype rule then
        handle_bind_connect_loop env dir fd addr addrlen si rest
      else if rule.socket_activation then do
        let newfd ← get_systemd_fd_for_rule env rule
        let copied ← set_cached_sockopts fd newfd
        if !copied then do
          g_rules_mutex_unlock
          g_sockinfo_mutex_unlock
          pure (-1)
        else do
          let r ← dup2 newfd fd
          if r = -1 then do
            g_rules_mutex_unlock
            g_sockinfo_mutex_unlock
            pure (-1)
          else do
            update si (fun x => { x with addr := addr.sin_addr, port := addr.sin_port })
            update si (fun x => { x with rule := some rule })
            g_sockinfo_mutex_unlock
            pure 0
      else
        match rule.socket_path with
        | none => handle_bind_connect_loop env dir fd addr addrlen si rest
        | some socket_path => do
          let converted ← sock_make_unix fd
          if !converted then
            handle_bind_connect_loop env dir fd addr addrlen si rest
          else do
            let info2 ← deref si
            let sockpath := format_sockpath socket_path
              ((get_addr_str env addr).getD "unknown") (ntohs addr.sin_port)
              (get_sotype info2.socktype)
            let ret ← real_bind_connect dir fd (sockaddr.un (sun_path_of sockpath))
              sizeof_sockaddr_un
            if ret = 0 then do
              update si (fun x => { x with addr := addr.sin_addr, port := addr.sin_port,
                                           sockpath := some sockpath, rule := some rule })
              g_rules_mutex_unlock
              g_sockinfo_mutex_unlock
              pure ret
            else do
              g_rules_mutex_unlock
              g_sockinfo_mutex_unlock
              pure ret

def handle_bind_connect (env : Env) (dir : RuleDir) (fd : Int) (addr : sockaddr)
    (addrlen : Int) : M Int :=
  if addr.sa_family ≠ AF_INET ∧ addr.sa_family ≠ AF_INET6 then
    real_bind_connect dir fd addr addrlen
  else do
    g_sockinfo_mutex_lock
    let found ← get_active_socket fd
    match found with
    | none => do
      g_sockinfo_mutex_unlock
      real_bind_connect dir fd addr addrlen
    | some se => do
      g_rules_mutex_lock
      init_rules env
      let rules ← (fun s => Res.ok (s.g_rules.getD []) s : M (List UdsmapRule))
      handle_bind_connect_loop env dir fd addr addrlen (get_parent se) rules

def bind (env : Env) (fd : Int) (addr : sockaddr) (addrlen : Int) : M Int :=
  handle_bind_connect env RuleDir.INCOMING fd addr addrlen

def connect (env : Env) (fd : Int) (addr : sockaddr) (addrlen : Int) : M Int :=
  handle_bind_connect env RuleDir.OUTGOING fd addr addrlen

/-- What `set_peername` writes to `*addr` and `*addrlen`: the members
`sin_family`, `sin_port`, `sin_addr` of `dummy` (its `sin_zero` is never
written) and `sizeof dummy`. -/
def set_peername : sockaddr × Int :=
  (sockaddr.raw AF_INET (htons 65530 ++ [127, 0, 0, 1]), sizeof_sockaddr_in)

/-- The pair `buf` is the content of the caller's `*addr` and `*addrlen`,
both taken to be non-null (`set_peername` writes through them without a
test); the result carries their content on return. -/
def handle_accept (fd : Int) (buf : sockaddr × Int) (flags : Int) :
    M (Int × (sockaddr × Int)) := do
  let acc ← real.accept4 fd buf flags
  if acc.1 > 0 then do
    g_sockinfo_mutex_lock
    let si ← get_active_socket fd
    match si with
    | some se => do
      g_active_sockets_assign acc.1 (SocketEntry.children (get_parent se))
      g_sockinfo_mutex_unlock
      pure (acc.1, set_peername)
    | none => do
      g_sockinfo_mutex_unlock
      pure acc
  else
    pure acc

def accept (fd : Int) (buf : sockaddr × Int) : M (Int × (sockaddr × Int)) :=
  handle_accept fd buf 0

def accept4 (fd : Int) (buf : sockaddr × Int) (flags : Int) : M (Int × (sockaddr × Int)) :=
  handle_accept fd buf flags

def getpeername (fd : Int) (buf : sockaddr × Int) : M (Int × (sockaddr × Int)) := do
  g_sockinfo_mutex_lock
  let found ← get_active_socket fd
  match found with
  | some _ => do
    g_sockinfo_mutex_unlock
    pure (0, set_peername)
  | none => do
    g_sockinfo_mutex_unlock
    real.getpeername fd buf

def getsockname (fd : Int) (buf : sockaddr × Int) : M (Int × (sockaddr × Int)) := do
  g_sockinfo_mutex_lock
  let found ← get_active_socket fd
  match found with
  | some se => do
    let si ← deref (get_parent se)
    g_sockinfo_mutex_unlock
    pure (0, (sockaddr.raw AF_INET (si.port ++ si.addr), sizeof_sockaddr_in))
  | none => do
    g_sockinfo_mutex_unlock
    real.getsockname fd buf

def close (fd : Int) : M Int := do
  g_sockinfo_mutex_lock
  let found ← get_active_socket fd
  match found with
  | none => do
    g_sockinfo_mutex_unlock
    real.close fd
  | some se =>
    if is_children se then do
      g_sockinfo_mutex_unlock
      real.close fd
    else do
      let si ← deref (get_parent se)
      if si.rule.isSome ∧ (si.rule.map (·.socket_activation)) = some true then do
        g_active_sockets_erase fd
        g_sockinfo_mutex_unlock
        pure 0
      else do
        let ret ← real.close fd
        match si.rule with
        | some rule =>
          if si.sockpath.isSome ∧ rule.direction = RuleDir.INCOMING then do
            unlink (c_str (si.sockpath.getD ""))
            g_active_sockets_erase fd
            g_sockinfo_mutex_unlock
            pure ret
          else do
            g_active_sockets_erase fd
            g_sockinfo_mutex_unlock
            pure ret
        | none => do
          g_active_sockets_erase fd
          g_sockinfo_mutex_unlock
          pure ret

/-! ## Notions used to state the properties -/

/-- The state with both mutexes held, as inside the handler's loop. -/
def locked (s : State) : State := { s with g_sockinfo_mutex := true, g_rules_mutex := true }

/-- The rule list the handler works on: the initialised list, or else what
`init_rules` reads. -/
def rules_of (env : Env) (s : State) : Option (List UdsmapRule) :=
  match s.g_rules with
  | some rules => some rules
  | none => env.IP2UNIX_RULE_FILE.bind env.parse_rules

/-- The three tests at the head of the loop body of `handle_bind_connect`. -/
def rule_matches (env : Env) (dir : RuleDir) (addr : sockaddr) (socktype : Int)
    (rule : UdsmapRule) : Bool :=
  decide (rule.direction = dir) && match_sockaddr_in env addr rule && match_sotype socktype rule

/-- The rule has external-fd activation or a socket path. -/
def rule_actionable (rule : UdsmapRule) : Bool :=
  rule.socket_activation || rule.socket_path.isSome

/-- The textual form of the caller's address: `inet_ntop` of the address
member of the structure of its family. -/
def address_text (env : Env) (addr : sockaddr) : Option String :=
  if addr.sa_family = AF_INET6 then env.inet_ntop AF_INET6 addr.sin6_addr
  else env.inet_ntop addr.sa_family addr.sin_addr

/-- A sequence of `setsockopt` calls on one descriptor, each given by level,
option name and value bytes; the results are collected in order. -/
def setsockopt_calls (fd : Int) : List SockoptEntry → M (List Int)
  | [] => pure []
  | c :: rest => do
    let r ← setsockopt fd c.level c.optname c.optval
    let rs ← setsockopt_calls fd rest
    pure (r :: rs)

/-- The calls of a sequence that were made at level `SOL_SOCKET` and returned
`0`, in order. -/
def succeeded_generic : List SockoptEntry → List Int → List SockoptEntry
  | c :: cs, r :: rs =>
    if c.level = SOL_SOCKET ∧ r = 0 then c :: succeeded_generic cs rs
    else succeeded_generic cs rs
  | _, _ => []

/-- The record of the real `bind` or `connect` call of a direction. -/
def bind_connect_call (dir : RuleDir) (fd : Int) (addr : sockaddr) (addrlen ret : Int) : Syscall :=
  match dir with
  | RuleDir.INCOMING => Syscall.bind fd addr addrlen ret
  | RuleDir.OUTGOING => Syscall.connect fd addr addrlen ret

/-- The call is a `bind` or a `connect`. -/
def Syscall.is_bind_connect : Syscall → Bool
  | Syscall.bind _ _ _ _ => true
  | Syscall.connect _ _ _ _ => true
  | _ => false

/-- Dotted-decimal text of the first four bytes, as `inet_ntop` gives it for
`AF_INET`. -/
def inet_ntop4 (src : List Nat) : String := ".".intercalate ((src.take 4).map toString)

/-- The sixteen-bit groups of an IPv6 address. -/
def words16 : List Nat → List Nat
  | hi :: lo :: rest => (hi * 256 + lo) :: words16 rest
  | _ => []

/-- The longer of two runs `(base, len)`, the earlier one among equals. -/
def longer_run (cur best : Option (Nat × Nat)) : Option (Nat × Nat) :=
  match cur, best with
  | none, b => b
  | some c, none => some c
  | some c, some b => if c.2 > b.2 then some c else some b

/-- The scan for the longest run of zero groups. -/
def zero_run_scan : List Nat → Nat → Option (Nat × Nat) → Option (Nat × Nat) →
    Option (Nat × Nat)
  | [], _, cur, best => longer_run cur best
  | w :: ws, i, cur, best =>
    if w = 0 then
      match cur with
      | none => zero_run_scan ws (i + 1) (some (i, 1)) best
      | some c => zero_run_scan ws (i + 1) (some (c.1, c.2 + 1)) best
    else zero_run_scan ws (i + 1) none (longer_run cur best)

/-- The run of zero groups that is written as `::`, if any. -/
def best_zero_run (words : List Nat) : Option (Nat × Nat) :=
  match zero_run_scan words 0 none none with
  | some b => if b.2 < 2 then none else some b
  | none => none

/-- The groups from index `i` on, written after `out`. -/
def inet_ntop6_loop (src words : List Nat) (base len : Nat) (run : Bool) :
    Nat → Nat → String → String
  | 0, _, out => out
  | n + 1, i, out =>
    if run ∧ base ≤ i ∧ i < base + len then
      inet_ntop6_loop src words base len run n (i + 1) (if i = base then out ++ ":" else out)
    else if i = 6 ∧ run ∧ base = 0 ∧ (len = 6 ∨ (len = 5 ∧ words.getD 5 0 = 65535)) then
      (if i ≠ 0 then out ++ ":" else out) ++ inet_ntop4 (src.drop 12)
    else
      inet_ntop6_loop src words base len run n (i + 1)
        ((if i ≠ 0 then out ++ ":" else out) ++ String.mk (Nat.toDigits 16 (words.getD i 0)))

/-- Text of the first sixteen bytes as an IPv6 address, as `inet_ntop` gives
it for `AF_INET6`. -/
def inet_ntop6 (src : List Nat) : String :=
  match best_zero_run (words16 (src.take 16)) with
  | some (base, len) =>
    inet_ntop6_loop src (words16 (src.take 16)) base len true 8 0 ""
      ++ (if base + len = 8 then ":" else "")
  | none => inet_ntop6_loop src (words16 (src.take 16)) 0 0 false 8 0 ""

/-- An environment whose rule file parses to `rules`, with one unnamed
descriptor passed by the supervisor. -/
def libc (rules : List UdsmapRule) : Env :=
  { inet_ntop := fun af src =>
      if af = AF_INET then some (inet_ntop4 src)
      else if af = AF_INET6 then some (inet_ntop6 src)
      else none
    IP2UNIX_RULE_FILE := some "rules"
    parse_rules := fun _ => some rules
    sd_listen_fds_with_names := some [""] }

/-- A process that has only its standard descriptors open. -/
def proc0 : State := { kernel := { fds := [(0, 0), (1, 1), (2, 2)], files := 3 } }

/-- The state in which a computation ends. -/
def exec {α : Type} (m : M α) (s : State) : State :=
  match m s with
  | Res.ok _ s' => s'
  | Res.halt _ s' => s'

/-- The value a computation returns, if it returns. -/
def result {α : Type} (m : M α) (s : State) : Option α :=
  match m s with
  | Res.ok a _ => some a
  | Res.halt _ _ => none

/-- The address 10.0.0.7:1234 as `sockaddr_in`. -/
def addr_10_0_0_7_1234 : sockaddr := sockaddr.raw AF_INET [4, 210, 10, 0, 0, 7]

/-- The address 0.0.0.0:8080 as `sockaddr_in`. -/
def addr_any_8080 : sockaddr := sockaddr.raw AF_INET [31, 144, 0, 0, 0, 0]

/-- The rule of scenario S1. -/
def rule_S1 : UdsmapRule :=
  { direction := RuleDir.INCOMING, type := some RuleIpType.TCP, port := some 8080,
    socket_path := some "/run/app.sock" }

/-- A path of 111 bytes, longer than `sun_path` can hold. -/
def long_path : String := String.mk ('/' :: List.replicate 110 'a')

def rule_long : UdsmapRule :=
  { direction := RuleDir.INCOMING, socket_path := some long_path }

/-- The caller's buffer for an address result before the call. -/
def empty_buf : sockaddr × Int := (sockaddr.raw 0 [], 128)

/-- A process after `socket(AF_INET, SOCK_STREAM, 0)`, which returned 3. -/
def proc_socket : State := exec (socket AF_INET SOCK_STREAM 0) proc0

/-- Scenario S1 up to `listen`: descriptor 3 is bound under `rule_S1`. -/
def proc_listening : State :=
  exec (listen 3 5) (exec (bind (libc [rule_S1]) 3 addr_any_8080 16) proc_socket)

/-- As `proc_listening`, after the program has closed its descriptor 0. -/
def proc_listening_no_stdin : State := exec (close 0) proc_listening

/-- A process that bound descriptor 3 under `rule_long`. -/
def proc_bound_long : State :=
  exec (bind (libc [rule_long]) 3 addr_10_0_0_7_1234 16) proc_socket

def rule_a : UdsmapRule := { direction := RuleDir.INCOMING, socket_path := some "/run/a.sock" }

def rule_b : UdsmapRule := { direction := RuleDir.INCOMING, socket_path := some "/run/b.sock" }

/-- Four `setsockopt` calls: `SO_REUSEADDR`, `TCP_NODELAY` at level
`IPPROTO_TCP`, `SO_RCVBUF` and `SO_KEEPALIVE`. -/
def calls_example : List SockoptEntry :=
  [{ level := SOL_SOCKET, optname := 2, optval := [1, 0, 0, 0] },
   { level := 6, optname := 1, optval := [1, 0, 0, 0] },
   { level := SOL_SOCKET, optname := 8, optval := [0, 0, 1, 0] },
   { level := SOL_SOCKET, optname := 9, optval := [1, 0, 0, 0] }]

/-- As `proc_socket`, with the kernel about to refuse the third call. -/
def proc_socket_third_fails : State :=
  { proc_socket with kernel := { proc_socket.kernel with replies := [0, 0, -1, 0] } }

/-- As `proc_socket`, with the kernel about to refuse the seventh call. -/
def proc_socket_seventh_fails : State :=
  { proc_socket with kernel := { proc_socket.kernel with replies := [0, 0, 0, 0, 0, 0, -1] } }

/-- A first `bind` under `rule_S1` whose real `bind` is refused, then a
successful `setsockopt(3, SOL_SOCKET, SO_REUSEADDR, 1)`. -/
def proc_retry : State :=
  exec (setsockopt 3 SOL_SOCKET 2 [1, 0, 0, 0])
    (exec (bind (libc [rule_S1]) 3 addr_any_8080 16) proc_socket_seventh_fails)

/-- A successful `setsockopt(3, SOL_SOCKET, SO_REUSEADDR, 1)` on the fresh
socket, the kernel then about to refuse the seventh call after it. -/
def proc_option_set : State :=
  { exec (setsockopt 3 SOL_SOCKET 2 [1, 0, 0, 0]) proc_socket with
      kernel := { (exec (setsockopt 3 SOL_SOCKET 2 [1, 0, 0, 0]) proc_socket).kernel with
                    replies := [0, 0, 0, 0, 0, 0, -1] } }

/-- The address [2001:db8::1]:8080 as `sockaddr_in6`, flow information and
scope zero. -/
def addr6_2001_db8_1_8080 : sockaddr :=
  sockaddr.raw AF_INET6
    ([31, 144] ++ [0, 0, 0, 0] ++ [32, 1, 13, 184, 0, 0, 0, 0, 0, 0, 0, 0, 0, 0, 0, 1]
      ++ [0, 0, 0, 0])

/-- A process after `socket(AF_INET6, SOCK_STREAM, 0)`, which returned 3, and
a `bind` of it to [2001:db8::1]:8080 under `rule_S1`. -/
def proc_bound6 : State :=
  exec (bind (libc [rule_S1]) 3 addr6_2001_db8_1_8080 28)
    (exec (socket AF_INET6 SOCK_STREAM 0) proc0)

/-- The address [::1]:8080 as `sockaddr_in6`, flow information and scope
zero. -/
def addr6_loopback_8080 : sockaddr :=
  sockaddr.raw AF_INET6
    ([31, 144] ++ [0, 0, 0, 0] ++ [0, 0, 0, 0, 0, 0, 0, 0, 0, 0, 0, 0, 0, 0, 0, 1]
      ++ [0, 0, 0, 0])

/-- The rule of scenario S6. -/
def rule_S6 : UdsmapRule :=
  { direction := RuleDir.INCOMING, port := some 80, socket_activation := true }

/-- The address 0.0.0.0:80 as `sockaddr_in`. -/
def addr_any_80 : sockaddr := sockaddr.raw AF_INET [0, 80, 0, 0, 0, 0]

/-- A process started by a supervisor that passed one listening socket as
descriptor 3. -/
def proc_supervised : State :=
  { kernel := { fds := [(0, 0), (1, 1), (2, 2), (3, 3)], files := 4 } }

/-- Scenario S6 up to `socket`, which returned 4. -/
def proc_supervised_socket : State := exec (socket AF_INET SOCK_STREAM 0) proc_supervised

/-- Scenario S6 after `bind(4, 0.0.0.0:80)` under `rule_S6`. -/
def proc_activated : State :=
  exec (bind (libc [rule_S6]) 4 addr_any_80 16) proc_supervised_socket

theorem sotype_text_eq (sotype : Option RuleIpType) : sotype_text sotype = transport_text sotype := by
  cases sotype with
  | none => rfl
  | some t => cases t <;> rfl

theorem expand_reference_cons_ne (addr : String) (port : Nat) (sotype : Option RuleIpType)
    (c : Char) (l : List Char) (hc : c ≠ '%') :
    expand_reference addr port sotype (c :: l) = c :: expand_reference addr port sotype l := by
  cases l with
  | nil => simp [expand_reference]
  | cons x rest => simp [expand_reference, hc]

theorem format_sockpath_loop_eq (sp : List Char) (addr : String) (port : Nat)
    (sotype : Option RuleIpType) :
    ∀ (n i : Nat) (out : List Char), sp.length - i ≤ n →
      format_sockpath_loop sp addr port sotype n i out
        = out ++ expand_reference addr port sotype (sp.drop i) := by
  intro n
  induction n with
  | zero =>
    intro i out h
    have hi : sp.length ≤ i := by omega
    simp [format_sockpath_loop, List.drop_eq_nil_of_le hi, expand_reference]
  | succ n ih =>
    intro i out h
    unfold format_sockpath_loop
    by_cases hi : i < sp.length
    · have hd : sp.drop i = sp.getD i ' ' :: sp.drop (i + 1) := by
        rw [List.getD_eq_getElem _ _ hi]
        exact List.drop_eq_getElem_cons hi
      rw [if_pos hi, hd]
      by_cases hp : sp.getD i ' ' = '%' ∧ i + 1 < sp.length
      · have hd2 : sp.drop (i + 1) = sp.getD (i + 1) ' ' :: sp.drop (i + 2) := by
          rw [List.getD_eq_getElem _ _ hp.2]
          exact List.drop_eq_getElem_cons hp.2
        rw [if_pos hp, hd2, hp.1]
        generalize sp.getD (i + 1) ' ' = x at hd2 ⊢
        by_cases h1 : x = '%'
        · rw [if_pos h1, ih _ _ (by omega), h1]
          simp [expand_reference]
        · rw [if_neg h1]
          by_cases h2 : x = 'a'
          · rw [if_pos h2, ih _ _ (by omega), h2]
            simp [expand_reference]
          · rw [if_neg h2]
            by_cases h3 : x = 'p'
            · rw [if_pos h3, ih _ _ (by omega), h3]
              simp [expand_reference]
            · rw [if_neg h3]
              by_cases h4 : x = 't'
              · rw [if_pos h4, ih _ _ (by omega), h4, sotype_text_eq]
                simp [expand_reference]
              · rw [if_neg h4, ih _ _ (by omega), hd2,
                  expand_reference_cons_ne _ _ _ _ _ h1]
                simp [expand_reference, h1, h2, h3, h4]
      · rw [if_neg hp, ih _ _ (by omega)]
        by_cases hc : sp.getD i ' ' = '%'
        · have hl : sp.length ≤ i + 1 := by
            by_contra hcon
            exact hp ⟨hc, by omega⟩
          simp [List.drop_eq_nil_of_le hl, expand_reference]
        · rw [expand_reference_cons_ne _ _ _ _ _ hc]
          simp
    · have hi2 : sp.length ≤ i := by omega
      simp [hi, List.drop_eq_nil_of_le hi2, expand_reference]

/-- C4: for every template, address text, port and transport type,
`format_sockpath` returns the left-to-right reference expansion (`%%` gives
`%`, `%a` the address text, `%p` the decimal port, `%t` one of `tcp`, `udp`,
`unknown`, any other `%x` both characters, a final `%` itself, every other
character itself); and `/tmp/%t-%a-%p.sock` with udp, 10.0.0.7 and 1234 gives
`/tmp/udp-10.0.0.7-1234.sock`. -/
theorem format_sockpath_eq_reference :
    (∀ (sockpath addr : String) (port : Nat) (sotype : Option RuleIpType),
      format_sockpath sockpath addr port sotype
        = String.mk (expand_reference addr port sotype sockpath.toList)) ∧
    format_sockpath "/tmp/%t-%a-%p.sock" "10.0.0.7" 1234 (some RuleIpType.UDP)
      = "/tmp/udp-10.0.0.7-1234.sock" := by
  refine ⟨?_, by decide⟩
  intro sockpath addr port sotype
  unfold format_sockpath
  rw [format_sockpath_loop_eq _ _ _ _ _ _ _ (by omega)]
  simp

/-! ## Transport type of a socket type -/

/-- C9: the transport derived from the socket type `SOCK_SEQPACKET` is tcp,
not none, so a tcp rule matches a sequenced-packet socket: the type bits are
masked with `SOCK_STREAM | SOCK_DGRAM`, which keeps the low bit of 5. -/
theorem get_sotype_seqpacket :
    get_sotype SOCK_SEQPACKET = some RuleIpType.TCP ∧
    match_sotype SOCK_SEQPACKET { direction := RuleDir.INCOMING, type := some RuleIpType.TCP }
      = true := by
  decide

/-! ## The shims at concrete inputs -/

/-- C7: when the real `socket` fails for an `AF_INET` request the shim returns
`-1` and nevertheless inserts an owner entry, under the key `-1`. -/
theorem socket_failed_inserts_entry :
    result (socket AF_INET SOCK_STREAM 0) { proc0 with kernel := { proc0.kernel with replies := [-1] } }
      = some (-1) ∧
    (exec (socket AF_INET SOCK_STREAM 0)
      { proc0 with kernel := { proc0.kernel with replies := [-1] } }).g_active_sockets
      = [(-1, SocketEntry.owner 0)] ∧
    proc0.g_active_sockets = [] := by
  decide!

/-- C5: after an incoming bind under a rule whose formatted path has 111
bytes, the real `bind` received the first 107 bytes as `sun_path`, and `close`
returns the result of the real `close` but unlinks the untruncated 111-byte
path, which is not the bound path. -/
theorem close_unlinks_untruncated_path :
    proc_bound_long.kernel.trace.getLast?
      = some (Syscall.bind 3 (sockaddr.un (String.mk ('/' :: List.replicate 106 'a')))
          sizeof_sockaddr_un 0) ∧
    result (close 3) proc_bound_long = some 0 ∧
    (exec (close 3) proc_bound_long).kernel.trace.drop proc_bound_long.kernel.trace.length
      = [Syscall.close 3 0, Syscall.unlink (String.mk ('/' :: List.replicate 110 'a'))] ∧
    String.mk ('/' :: List.replicate 110 'a') ≠ String.mk ('/' :: List.replicate 106 'a') := by
  decide!

/-- C6: `accept` on the tracked listener 3 returns 5 and inserts a child entry
for it; `close(5)` returns the result of the real `close` and leaves that
child entry in the socket table. -/
theorem close_child_keeps_entry :
    result (accept 3 empty_buf) proc_listening = some (5, set_peername) ∧
    (exec (accept 3 empty_buf) proc_listening).g_active_sockets.lookup 5
      = some (SocketEntry.children 0) ∧
    result (close 5) (exec (accept 3 empty_buf) proc_listening) = some 0 ∧
    (exec (close 5) (exec (accept 3 empty_buf) proc_listening)).g_active_sockets.lookup 5
      = some (SocketEntry.children 0) ∧
    (exec (close 5) (exec (accept 3 empty_buf) proc_listening)).kernel.is_open 5 = false := by
  decide!

/-- C8: when descriptor 0 is free, the real `accept4` on the tracked listener 3
returns the valid descriptor 0; the shim then inserts no child entry and hands
back the address the real call wrote instead of 127.0.0.1 port 65530. -/
theorem accept_descriptor_zero_untracked :
    proc_listening_no_stdin.g_active_sockets.lookup 3 = some (SocketEntry.owner 0) ∧
    result (accept 3 empty_buf) proc_listening_no_stdin
      = some (0, proc_listening_no_stdin.kernel.kaddr) ∧
    proc_listening_no_stdin.kernel.kaddr ≠ set_peername ∧
    (exec (accept 3 empty_buf) proc_listening_no_stdin).kernel.is_open 0 = true ∧
    (exec (accept 3 empty_buf) proc_listening_no_stdin).g_active_sockets.lookup 0 = none := by
  decide!

/-- C10: a successful `sock_make_unix` on the fresh owner 3 leaves the
transient descriptor 4 open: afterwards 4 and 3 refer to the same new socket
and the set of open descriptors has grown by 4. -/
theorem sock_make_unix_leaves_transient_open :
    proc_socket.kernel.fds.map Prod.fst = [3, 0, 1, 2] ∧
    result (sock_make_unix 3) proc_socket = some true ∧
    (exec (sock_make_unix 3) proc_socket).heap.map SocketInfo.is_converted = [true] ∧
    (exec (sock_make_unix 3) proc_socket).kernel.fds.map Prod.fst = [3, 4, 0, 1, 2] ∧
    (exec (sock_make_unix 3) proc_socket).kernel.fds.lookup 4
      = (exec (sock_make_unix 3) proc_socket).kernel.fds.lookup 3 ∧
    (exec (sock_make_unix 3) proc_socket).kernel.trace.getLast? = some (Syscall.dup2 4 3 3) := by
  decide!

/-! ## The state monad and the loop of the handler -/

theorem pure_apply {α : Type} (a : α) (s : State) : (pure a : M α) s = Res.ok a s := rfl

theorem bind_apply {α β : Type} (m : M α) (f : α → M β) (s : State) :
    (m >>= f) s = match m s with
      | Res.ok a s' => f a s'
      | Res.halt h s' => Res.halt h s' := rfl

theorem bind_ok {α β : Type} {m : M α} {f : α → M β} {s s' : State} {a : α}
    (h : m s = Res.ok a s') : (m >>= f) s = f a s' := by
  rw [bind_apply, h]

theorem deref_ok {p : SocketInfoPtr} {s : State} {info : SocketInfo}
    (h : s.heap[p]? = some info) : deref p s = Res.ok info s := by
  simp [deref, h]

theorem loop_skip (env : Env) (dir : RuleDir) (fd : Int) (addr : sockaddr) (addrlen : Int)
    (si : SocketInfoPtr) (r : UdsmapRule) (rest : List UdsmapRule) (s : State)
    (info : SocketInfo) (hinfo : s.heap[si]? = some info)
    (h : (rule_matches env dir addr info.socktype r && rule_actionable r) = false) :
    handle_bind_connect_loop env dir fd addr addrlen si (r :: rest) s
      = handle_bind_connect_loop env dir fd addr addrlen si rest s := by
  rw [handle_bind_connect_loop]
  by_cases h1 : r.direction = dir
  · by_cases h2 : match_sockaddr_in env addr r = true
    · by_cases h3 : match_sotype info.socktype r = true
      · have h4 : rule_actionable r = false := by
          simpa [rule_matches, h1, h2, h3] using h
        simp only [rule_actionable, Bool.or_eq_false_iff] at h4
        have h5 : r.socket_path = none := by
          cases hp : r.socket_path with
          | none => rfl
          | some p => simp [hp] at h4
        simp [h1, h2, bind_ok (deref_ok hinfo), h3, h4.1, h5]
      · simp [h1, h2, bind_ok (deref_ok hinfo), h3]
    · simp [h1, h2]
  · simp [h1]

theorem result_eq_some {α : Type} {m : M α} {s : State} {a : α} (h : result m s = some a) :
    ∃ s', m s = Res.ok a s' := by
  unfold result at h
  split at h
  · next b s' hb => exact ⟨s', by simp at h; rw [hb, h]⟩
  · simp at h

theorem loop_act (env : Env) (dir : RuleDir) (fd : Int) (addr : sockaddr) (addrlen : Int)
    (si : SocketInfoPtr) (r : UdsmapRule) (rest rest' : List UdsmapRule) (s : State)
    (info : SocketInfo) (hinfo : s.heap[si]? = some info)
    (h : (rule_matches env dir addr info.socktype r && rule_actionable r) = true)
    (hconv : r.socket_activation = false → result (sock_make_unix fd) s = some true) :
    handle_bind_connect_loop env dir fd addr addrlen si (r :: rest) s
      = handle_bind_connect_loop env dir fd addr addrlen si (r :: rest') s := by
  simp only [rule_matches, Bool.and_eq_true, decide_eq_true_eq] at h
  obtain ⟨⟨⟨h1, h2⟩, h3⟩, h4⟩ := h
  rw [handle_bind_connect_loop, handle_bind_connect_loop]
  cases ha : r.socket_activation with
  | true => simp [h1, h2, bind_ok (deref_ok hinfo), h3, ha]
  | false =>
    obtain ⟨s1, hs1⟩ := result_eq_some (hconv ha)
    cases hp : r.socket_path with
    | none => simp [rule_actionable, ha, hp] at h4
    | some p => simp [h1, h2, bind_ok (deref_ok hinfo), h3, ha, hp, bind_ok hs1]

theorem loop_first (env : Env) (dir : RuleDir) (fd : Int) (addr : sockaddr) (addrlen : Int)
    (si : SocketInfoPtr) (s : State) (info : SocketInfo) (hinfo : s.heap[si]? = some info)
    (rules : List UdsmapRule)
    (hconv : ∀ r, rules.find? (fun r => rule_matches env dir addr info.socktype r
        && rule_actionable r) = some r → r.socket_activation = false →
        result (sock_make_unix fd) s = some true) :
    handle_bind_connect_loop env dir fd addr addrlen si rules s
      = handle_bind_connect_loop env dir fd addr addrlen si
          (rules.find? (fun r => rule_matches env dir addr info.socktype r
            && rule_actionable r)).toList s := by
  induction rules with
  | nil => rfl
  | cons r rest ih =>
    cases h : (rule_matches env dir addr info.socktype r && rule_actionable r) with
    | true =>
      have hf : (r :: rest).find? (fun r => rule_matches env dir addr info.socktype r
          && rule_actionable r) = some r := by
        simp [List.find?_cons, h]
      rw [hf]
      exact loop_act env dir fd addr addrlen si r rest [] s info hinfo h (hconv r hf)
    | false =>
      have hf : (r :: rest).find? (fun r => rule_matches env dir addr info.socktype r
          && rule_actionable r) = rest.find? (fun r => rule_matches env dir addr info.socktype r
          && rule_actionable r) := by
        simp [List.find?_cons, h]
      rw [hf, loop_skip env dir fd addr addrlen si r rest s info hinfo h]
      exact ih (fun r' hr' => hconv r' (by rw [hf]; exact hr'))

theorem set_self_of_getElem? {α : Type} : ∀ {l : List α} {i : Nat} {a : α},
    l[i]? = some a → l.set i a = l
  | [], _, _, h => by simp at h
  | x :: l, 0, a, h => by simp at h; simp [h]
  | x :: l, i + 1, a, h => by
    simp at h
    simp [set_self_of_getElem? h]

theorem getElem?_set_of_some {α : Type} {l : List α} {i : Nat} {a b : α}
    (h : l[i]? = some a) : (l.set i b)[i]? = some b := by
  rw [List.getElem?_set_self', h]
  rfl

theorem status_eq (k : Kernel) (fd : Int) : k.status fd = -1 ∨ k.status fd = 0 := by
  unfold Kernel.status
  split <;> simp

theorem update_ok {p : SocketInfoPtr} {s : State} {info : SocketInfo} (f : SocketInfo → SocketInfo)
    (h : s.heap[p]? = some info) :
    update p f s = Res.ok () { s with heap := s.heap.set p (f info) } := by
  simp [update, h]

theorem sys_apply {α : Type} (f : Kernel → α × Kernel) (s : State) :
    sys f s = Res.ok (f s.kernel).1 { s with kernel := (f s.kernel).2 } := rfl

/-- The replay loop returns; it changes the kernel and the queue of the record
only, and when it reports success the queue is empty and every entry was set
on the new descriptor, in order. -/
theorem replay_sockopts_spec (p : SocketInfoPtr) (new_sockfd : Int) :
    ∀ (q : List SockoptEntry) (s : State) (info : SocketInfo),
      s.heap[p]? = some info → info.sockopts = q →
      ∃ b s' q' evs, replay_sockopts p new_sockfd q s = Res.ok b s' ∧
        s' = { s with kernel := s'.kernel,
                      heap := s.heap.set p { info with sockopts := q' } } ∧
        s'.kernel.trace = s.kernel.trace ++ evs ∧
        s'.kernel.fds = s.kernel.fds ∧
        (∀ e ∈ evs, e.is_bind_connect = false) ∧
        (b = false → evs ≠ []) ∧
        (b = true → q' = [] ∧ evs = q.map (fun e =>
            Syscall.setsockopt new_sockfd e.level e.optname e.optval 0)) := by
  intro q
  induction q with
  | nil =>
    intro s info hinfo hq
    refine ⟨true, s, [], [], rfl, ?_, by simp, rfl, by simp, by simp, by simp⟩
    have : ({ info with sockopts := [] } : SocketInfo) = info := by
      cases info; simp_all
    rw [this, set_self_of_getElem? hinfo]
  | cons entry rest ih =>
    intro s info hinfo hq
    have hcall : real.setsockopt new_sockfd entry.level entry.optname entry.optval s
        = Res.ok (s.kernel.status new_sockfd)
            { s with kernel := (s.kernel.setsockopt new_sockfd entry.level entry.optname
                entry.optval).2 } := rfl
    rw [replay_sockopts, bind_ok hcall]
    rcases status_eq s.kernel new_sockfd with hst | hst
    · refine ⟨false, { s with kernel := (s.kernel.setsockopt new_sockfd entry.level entry.optname
                entry.optval).2 }, entry :: rest, [Syscall.setsockopt new_sockfd entry.level
                entry.optname entry.optval (-1)], ?_, ?_, ?_, rfl, ?_, by simp, by simp⟩
      · simp [hst, pure_apply]
      · have : ({ info with sockopts := entry :: rest } : SocketInfo) = info := by
          cases info; simp_all
        simp [this, set_self_of_getElem? hinfo]
      · simp [Kernel.setsockopt, hst]
      · intro e he
        simp at he
        rw [he]
        rfl
    · have hne : ¬ ((0 : Int) = -1) := by decide
      have hinfo1 : ({ s with kernel := (s.kernel.setsockopt new_sockfd entry.level entry.optname
                entry.optval).2 } : State).heap[p]? = some info := hinfo
      simp only [hst, hne, if_false]
      rw [bind_ok (update_ok _ hinfo1)]
      have hinfo2 : (s.heap.set p { info with sockopts := info.sockopts.tail })[p]?
          = some { info with sockopts := rest } := by
        rw [getElem?_set_of_some hinfo, hq]
        rfl
      obtain ⟨b, s', q', evs, hrun, hs', htr, hfds, hevs, hbf, hbt⟩ :=
        ih { s with kernel := (s.kernel.setsockopt new_sockfd entry.level entry.optname
                entry.optval).2,
                    heap := s.heap.set p { info with sockopts := info.sockopts.tail } }
          { info with sockopts := rest } hinfo2 rfl
      refine ⟨b, s', q', Syscall.setsockopt new_sockfd entry.level entry.optname
        entry.optval 0 :: evs, hrun, ?_, ?_, ?_, ?_, by simp, ?_⟩
      · rw [hs']
        simp [List.set_set]
      · rw [htr]
        simp [Kernel.setsockopt, hst]
      · rw [hfds]
        rfl
      · intro e he
        simp at he
        rcases he with he | he
        · rw [he]; rfl
        · exact hevs e he
      · intro hb
        obtain ⟨h1, h2⟩ := hbt hb
        exact ⟨h1, by simp [h2]⟩

theorem info_sockopts_self (info : SocketInfo) :
    ({ info with sockopts := info.sockopts } : SocketInfo) = info := by
  cases info; rfl

theorem fcntl_getfd_step (fd : Int) (s : State) :
    ∃ r k, fcntl_getfd fd s = Res.ok r { s with kernel := k } ∧
      k.trace = s.kernel.trace ++ [Syscall.fcntl_getfd fd r] ∧ k.fds = s.kernel.fds :=
  ⟨_, _, rfl, rfl, rfl⟩

theorem fcntl_getfl_step (fd : Int) (s : State) :
    ∃ r k, fcntl_getfl fd s = Res.ok r { s with kernel := k } ∧
      k.trace = s.kernel.trace ++ [Syscall.fcntl_getfl fd r] ∧ k.fds = s.kernel.fds :=
  ⟨_, _, rfl, rfl, rfl⟩

theorem fcntl_setfd_step (fd arg : Int) (s : State) :
    ∃ r k, fcntl_setfd fd arg s = Res.ok r { s with kernel := k } ∧
      k.trace = s.kernel.trace ++ [Syscall.fcntl_setfd fd arg r] ∧ k.fds = s.kernel.fds ∧
      (r = -1 ∨ r = 0) :=
  ⟨_, _, rfl, rfl, rfl, status_eq _ _⟩

theorem fcntl_setfl_step (fd arg : Int) (s : State) :
    ∃ r k, fcntl_setfl fd arg s = Res.ok r { s with kernel := k } ∧
      k.trace = s.kernel.trace ++ [Syscall.fcntl_setfl fd arg r] ∧ k.fds = s.kernel.fds ∧
      (r = -1 ∨ r = 0) :=
  ⟨_, _, rfl, rfl, rfl, status_eq _ _⟩

theorem get_active_socket_apply (fd : Int) (s : State) :
    get_active_socket fd s = Res.ok (s.g_active_sockets.lookup fd) s := rfl

/-- The call `set_cached_sockopts` on a tracked descriptor returns; it makes at least
one call, none of them a `bind` or `connect`, changes the kernel and the queue
of the record only, and on success has emptied the queue after setting its
entries on the new descriptor in order. -/
theorem set_cached_sockopts_spec (old_sockfd new_sockfd : Int) (s : State) (se : SocketEntry)
    (info : SocketInfo) (hfd : s.g_active_sockets.lookup old_sockfd = some se)
    (hinfo : s.heap[get_parent se]? = some info) :
    ∃ b s' q' evs, set_cached_sockopts old_sockfd new_sockfd s = Res.ok b s' ∧
      s' = { s with kernel := s'.kernel,
                    heap := s.heap.set (get_parent se) { info with sockopts := q' } } ∧
      s'.kernel.trace = s.kernel.trace ++ evs ∧
      s'.kernel.fds = s.kernel.fds ∧
      (∀ e ∈ evs, e.is_bind_connect = false) ∧
      evs ≠ [] ∧
      (b = true → q' = [] ∧ ∃ fl st, evs =
        [Syscall.fcntl_getfd old_sockfd fl, Syscall.fcntl_getfl old_sockfd st,
         Syscall.fcntl_setfd new_sockfd fl 0, Syscall.fcntl_setfl new_sockfd st 0]
        ++ info.sockopts.map (fun e =>
            Syscall.setsockopt new_sockfd e.level e.optname e.optval 0)) := by
  have hself : s.heap.set (get_parent se) { info with sockopts := info.sockopts } = s.heap := by
    rw [info_sockopts_self, set_self_of_getElem? hinfo]
  unfold set_cached_sockopts
  obtain ⟨r1, k1, hc1, ht1, hf1⟩ := fcntl_getfd_step old_sockfd s
  rw [bind_ok hc1]
  by_cases h1 : r1 = -1
  · refine ⟨false, _, info.sockopts, [Syscall.fcntl_getfd old_sockfd r1], by
      simp only [h1, if_true]; rfl, ?_, ht1, hf1, ?_, by simp, by simp⟩
    · simp [hself]
    · intro e he
      simp at he
      rw [he]; rfl
  · simp only [h1, if_false]
    obtain ⟨r2, k2, hc2, ht2, hf2⟩ := fcntl_getfl_step old_sockfd { s with kernel := k1 }
    rw [bind_ok hc2]
    by_cases h2 : r2 = -1
    · refine ⟨false, _, info.sockopts, [Syscall.fcntl_getfd old_sockfd r1,
        Syscall.fcntl_getfl old_sockfd r2], by simp only [h2, if_true]; rfl, ?_, ?_, ?_, ?_,
        by simp, by simp⟩
      · simp [hself]
      · simp [ht2, ht1]
      · simp [hf2, hf1]
      · intro e he
        simp at he
        rcases he with he | he <;> (rw [he]; rfl)
    · simp only [h2, if_false]
      obtain ⟨r3, k3, hc3, ht3, hf3, hr3⟩ := fcntl_setfd_step new_sockfd r1
        { s with kernel := k2 }
      rw [bind_ok hc3]
      by_cases h3 : r3 = -1
      · refine ⟨false, _, info.sockopts, [Syscall.fcntl_getfd old_sockfd r1,
          Syscall.fcntl_getfl old_sockfd r2, Syscall.fcntl_setfd new_sockfd r1 r3], by
          simp only [h3, if_true]; rfl, ?_, ?_, ?_, ?_, by simp, by simp⟩
        · simp [hself]
        · simp [ht3, ht2, ht1]
        · simp [hf3, hf2, hf1]
        · intro e he
          simp at he
          rcases he with he | he | he <;> (rw [he]; rfl)
      · simp only [h3, if_false]
        have h3' : r3 = 0 := by rcases hr3 with h | h; exact absurd h h3; exact h
        obtain ⟨r4, k4, hc4, ht4, hf4, hr4⟩ := fcntl_setfl_step new_sockfd r2
          { s with kernel := k3 }
        rw [bind_ok hc4]
        by_cases h4 : r4 = -1
        · refine ⟨false, _, info.sockopts, [Syscall.fcntl_getfd old_sockfd r1,
            Syscall.fcntl_getfl old_sockfd r2, Syscall.fcntl_setfd new_sockfd r1 r3,
            Syscall.fcntl_setfl new_sockfd r2 r4], by
            simp only [h4, if_true]; rfl, ?_, ?_, ?_, ?_, by simp, by simp⟩
          · simp [hself]
          · simp [ht4, ht3, ht2, ht1]
          · simp [hf4, hf3, hf2, hf1]
          · intro e he
            simp at he
            rcases he with he | he | he | he <;> (rw [he]; rfl)
        · simp only [h4, if_false]
          have h4' : r4 = 0 := by rcases hr4 with h | h; exact absurd h h4; exact h
          have hfd4 : ({ s with kernel := k4 } : State).g_active_sockets.lookup old_sockfd
              = some se := hfd
          have hinfo4 : ({ s with kernel := k4 } : State).heap[get_parent se]? = some info := hinfo
          rw [bind_ok (get_active_socket_apply _ _)]
          simp only [hfd4]
          rw [bind_ok (deref_ok hinfo4)]
          obtain ⟨b, s', q', evs, hrun, hs', htr, hfds, hevs, hbf, hbt⟩ :=
            replay_sockopts_spec (get_parent se) new_sockfd info.sockopts
              { s with kernel := k4 } info hinfo4 rfl
          refine ⟨b, s', q', [Syscall.fcntl_getfd old_sockfd r1,
            Syscall.fcntl_getfl old_sockfd r2, Syscall.fcntl_setfd new_sockfd r1 r3,
            Syscall.fcntl_setfl new_sockfd r2 r4] ++ evs, hrun, ?_, ?_, ?_, ?_, by simp, ?_⟩
          · rw [hs']
          · simp [htr, ht4, ht3, ht2, ht1]
          · simp [hfds, hf4, hf3, hf2, hf1]
          · intro e he
            simp at he
            rcases he with he | he | he | he | he
            · rw [he]; rfl
            · rw [he]; rfl
            · rw [he]; rfl
            · rw [he]; rfl
            · exact hevs e he
          · intro hb
            obtain ⟨hq, he⟩ := hbt hb
            exact ⟨hq, r1, r2, by rw [he, h3', h4']⟩

theorem real_socket_step (domain type protocol : Int) (s : State) :
    ∃ r k, real.socket domain type protocol s = Res.ok r { s with kernel := k } ∧
      k.trace = s.kernel.trace ++ [Syscall.socket domain type protocol r] := by
  by_cases h : s.kernel.reply < 0
  · exact ⟨_, _, rfl, by simp [Kernel.socket, h]⟩
  · exact ⟨_, _, rfl, by simp [Kernel.socket, h]⟩

theorem dup2_step (oldfd newfd : Int) (s : State) :
    ∃ r k, dup2 oldfd newfd s = Res.ok r { s with kernel := k } ∧
      k.trace = s.kernel.trace ++ [Syscall.dup2 oldfd newfd r] ∧ (r = -1 ∨ r = newfd) := by
  refine ⟨_, _, rfl, ?_, ?_⟩
  · simp only [Kernel.dup2]
    split
    · split <;> rfl
    · rfl
  · simp only [Kernel.dup2]
    split
    · split <;> simp
    · simp

theorem real_close_step (fd : Int) (s : State) :
    ∃ r k, real.close fd s = Res.ok r { s with kernel := k } ∧
      k.trace = s.kernel.trace ++ [Syscall.close fd r] := by
  refine ⟨_, _, rfl, ?_⟩
  simp only [Kernel.close]
  split <;> rfl

/-- The call `sock_make_unix` on a tracked descriptor returns; it makes no `bind` or
`connect`, changes the kernel and the queue and converted flag of the record
only, and when it succeeds on a record that was not converted, it has
created a socket, copied the flags, set the queued options on it in order and
duplicated it onto the descriptor. -/
theorem sock_make_unix_spec (fd : Int) (s : State) (se : SocketEntry) (info : SocketInfo)
    (hfd : s.g_active_sockets.lookup fd = some se)
    (hinfo : s.heap[get_parent se]? = some info) :
    ∃ b s' info' evs, sock_make_unix fd s = Res.ok b s' ∧
      s' = { s with kernel := s'.kernel, heap := s.heap.set (get_parent se) info' } ∧
      ({ info' with sockopts := [], is_converted := true } : SocketInfo)
        = { info with sockopts := [], is_converted := true } ∧
      s'.kernel.trace = s.kernel.trace ++ evs ∧
      (∀ e ∈ evs, e.is_bind_connect = false) ∧
      (b = true → info'.is_converted = true) ∧
      (b = true → info.is_converted = false → info'.sockopts = [] ∧
        ∃ nfd fl st, evs =
          [Syscall.socket AF_UNIX info.socktype 0 nfd,
           Syscall.fcntl_getfd fd fl, Syscall.fcntl_getfl fd st,
           Syscall.fcntl_setfd nfd fl 0, Syscall.fcntl_setfl nfd st 0]
          ++ info.sockopts.map (fun e => Syscall.setsockopt nfd e.level e.optname e.optval 0)
          ++ [Syscall.dup2 nfd fd fd]) := by
  unfold sock_make_unix
  rw [bind_ok (get_active_socket_apply _ _)]
  simp only [hfd]
  rw [bind_ok (deref_ok hinfo)]
  cases hc : info.is_converted with
  | true =>
    refine ⟨true, s, info, [], by simp; rfl, ?_, rfl, by simp, by simp, fun _ => hc, by simp⟩
    rw [set_self_of_getElem? hinfo]
  | false =>
    simp only [Bool.false_eq_true, if_false]
    obtain ⟨r1, k1, hc1, ht1⟩ := real_socket_step AF_UNIX info.socktype 0 s
    rw [bind_ok hc1]
    by_cases h1 : r1 = -1
    · refine ⟨false, _, info, [Syscall.socket AF_UNIX info.socktype 0 r1], by
        simp only [h1, if_true]; rfl, ?_, rfl, ht1, ?_, by simp, by simp⟩
      · simp [set_self_of_getElem? hinfo]
      · intro e he
        simp at he
        rw [he]; rfl
    · simp only [h1, if_false]
      have hfd1 : ({ s with kernel := k1 } : State).g_active_sockets.lookup fd = some se := hfd
      have hinfo1 : ({ s with kernel := k1 } : State).heap[get_parent se]? = some info := hinfo
      obtain ⟨b, s2, q', evs, hrun, hs2, htr2, _, hevs, _, hbt⟩ :=
        set_cached_sockopts_spec fd r1 { s with kernel := k1 } se info hfd1 hinfo1
      rw [bind_ok hrun]
      cases b with
      | false =>
        obtain ⟨r3, k3, hc3, ht3⟩ := real_close_step r1 s2
        simp only [Bool.not_false, if_true]
        rw [bind_ok hc3]
        refine ⟨false, _, { info with sockopts := q' },
          Syscall.socket AF_UNIX info.socktype 0 r1 :: (evs ++ [Syscall.close r1 r3]),
          rfl, ?_, rfl, ?_, ?_, by simp, by simp⟩
        · rw [hs2]
        · simp [ht3, htr2, ht1]
        · intro e he
          simp at he
          rcases he with he | he | he
          · rw [he]; rfl
          · exact hevs e he
          · rw [he]; rfl
      | true =>
        obtain ⟨hq', fl, st, hev⟩ := hbt rfl
        simp only [Bool.not_true, Bool.false_eq_true, if_false]
        obtain ⟨r3, k3, hc3, ht3, hr3⟩ := dup2_step r1 fd s2
        rw [bind_ok hc3]
        by_cases h3 : r3 = -1
        · obtain ⟨r4, k4, hc4, ht4⟩ := real_close_step r1 { s2 with kernel := k3 }
          simp only [h3, if_true]
          rw [bind_ok hc4]
          refine ⟨false, _, { info with sockopts := q' },
            Syscall.socket AF_UNIX info.socktype 0 r1 ::
              (evs ++ [Syscall.dup2 r1 fd r3, Syscall.close r1 r4]),
            rfl, ?_, rfl, ?_, ?_, by simp, by simp⟩
          · rw [hs2]
          · simp [ht4, ht3, htr2, ht1]
          · intro e he
            simp at he
            rcases he with he | he | he | he
            · rw [he]; rfl
            · exact hevs e he
            · rw [he]; rfl
            · rw [he]; rfl
        · simp only [h3, if_false]
          have h3' : r3 = fd := by rcases hr3 with h | h; exact absurd h h3; exact h
          have hinfo3 : ({ s2 with kernel := k3 } : State).heap[get_parent se]?
              = some { info with sockopts := q' } := by
            rw [hs2]
            exact getElem?_set_of_some hinfo
          rw [bind_ok (update_ok _ hinfo3)]
          refine ⟨true, _, { info with sockopts := q', is_converted := true },
            Syscall.socket AF_UNIX info.socktype 0 r1 :: (evs ++ [Syscall.dup2 r1 fd r3]),
            rfl, ?_, rfl, ?_, ?_, by simp, ?_⟩
          · rw [hs2]
            simp [List.set_set]
          · simp [ht3, htr2, ht1]
          · intro e he
            simp at he
            rcases he with he | he | he
            · rw [he]; rfl
            · exact hevs e he
            · rw [he]; rfl
          · intro _ _
            refine ⟨hq', r1, fl, st, ?_⟩
            rw [hev, h3']
            simp

theorem rules_of_init {env : Env} {s : State} {rules : List UdsmapRule}
    (h : rules_of env s = some rules) :
    init_rules env s = Res.ok () { s with g_rules := some rules } := by
  unfold rules_of at h
  unfold init_rules
  cases hg : s.g_rules with
  | some r =>
    rw [hg] at h
    simp at h
    subst h
    simp
    cases s
    simp_all
  | none =>
    rw [hg] at h
    simp only [Option.isSome_none, Bool.false_eq_true, if_false]
    cases hf : env.IP2UNIX_RULE_FILE with
    | none => simp [hf] at h
    | some f =>
      simp [hf] at h
      simp [h]

theorem handle_bind_connect_eq_loop (env : Env) (dir : RuleDir) (fd : Int) (addr : sockaddr)
    (addrlen : Int) (s : State) (se : SocketEntry) (rules : List UdsmapRule)
    (hfam : addr.sa_family = AF_INET ∨ addr.sa_family = AF_INET6)
    (hm1 : s.g_sockinfo_mutex = false) (hm2 : s.g_rules_mutex = false)
    (hfd : s.g_active_sockets.lookup fd = some se)
    (hrules : rules_of env s = some rules) :
    handle_bind_connect env dir fd addr addrlen s
      = handle_bind_connect_loop env dir fd addr addrlen (get_parent se) rules
          (locked { s with g_rules := some rules }) := by
  have hcond : ¬ (addr.sa_family ≠ AF_INET ∧ addr.sa_family ≠ AF_INET6) := by
    rcases hfam with h | h <;> simp [h]
  unfold handle_bind_connect
  simp only [hcond, if_false]
  have h1 : g_sockinfo_mutex_lock s = Res.ok () { s with g_sockinfo_mutex := true } := by
    simp [g_sockinfo_mutex_lock, hm1]
  rw [bind_ok h1, bind_ok (get_active_socket_apply _ _)]
  simp only [hfd]
  have h2 : g_rules_mutex_lock { s with g_sockinfo_mutex := true }
      = Res.ok () { s with g_sockinfo_mutex := true, g_rules_mutex := true } := by
    simp [g_rules_mutex_lock, hm2]
  have h3 : rules_of env { s with g_sockinfo_mutex := true, g_rules_mutex := true }
      = some rules := hrules
  rw [bind_ok h2, bind_ok (rules_of_init h3), bind_apply]
  rfl

theorem get_systemd_fd_for_rule_frame (env : Env) (rule : UdsmapRule) (s s' : State) (fd : Int)
    (h : get_systemd_fd_for_rule env rule s = Res.ok fd s') :
    s' = { s with names := s'.names, fds := s'.fds, fetch_done := s'.fetch_done } := by
  unfold get_systemd_fd_for_rule at h
  simp only at h
  split at h
  · simp at h
  · next u s1 hfetch =>
    have hs1 : s1 = { s with names := s1.names, fds := s1.fds, fetch_done := s1.fetch_done } := by
      split at hfetch
      · simp at hfetch
        subst hfetch
        rfl
      · split at hfetch
        · simp at hfetch
        · split at hfetch
          · simp at hfetch
          · simp at hfetch
            subst hfetch
            rfl
    split at h
    · split at h
      · simp at h
      · simp at h
        rw [← h.2]
        exact hs1
    · split at h
      · simp at h
      · simp at h
        rw [← h.2, hs1]

theorem real_bind_connect_step (dir : RuleDir) (fd : Int) (addr : sockaddr) (addrlen : Int)
    (s : State) :
    ∃ r k, real_bind_connect dir fd addr addrlen s = Res.ok r { s with kernel := k } ∧
      k.trace = s.kernel.trace ++ [bind_connect_call dir fd addr addrlen r] := by
  cases dir
  · exact ⟨_, _, rfl, rfl⟩
  · exact ⟨_, _, rfl, rfl⟩

theorem real_setsockopt_step (fd level optname : Int) (optval : List Nat) (s : State) :
    ∃ r k, real.setsockopt fd level optname optval s = Res.ok r { s with kernel := k } ∧
      k.trace = s.kernel.trace ++ [Syscall.setsockopt fd level optname optval r] ∧
      (r = -1 ∨ r = 0) :=
  ⟨_, _, rfl, rfl, status_eq _ _⟩

/-- The `setsockopt` shim on a tracked descriptor returns the result of the
real call and appends the option to the queue of the record exactly when the
level is `SOL_SOCKET` and the real call returned `0`. -/
theorem setsockopt_spec (fd level optname : Int) (optval : List Nat) (s : State)
    (se : SocketEntry) (info : SocketInfo)
    (hm : s.g_sockinfo_mutex = false)
    (hfd : s.g_active_sockets.lookup fd = some se)
    (hinfo : s.heap[get_parent se]? = some info) :
    ∃ r s', setsockopt fd level optname optval s = Res.ok r s' ∧
      s' = { s with kernel := s'.kernel,
                    heap := s.heap.set (get_parent se) { info with sockopts := info.sockopts ++
                      (if level = SOL_SOCKET ∧ r = 0 then
                        [{ level := level, optname := optname, optval := optval }] else []) } } ∧
      s'.kernel.trace = s.kernel.trace ++ [Syscall.setsockopt fd level optname optval r] := by
  have hl : g_sockinfo_mutex_lock s = Res.ok () { s with g_sockinfo_mutex := true } := by
    simp [g_sockinfo_mutex_lock, hm]
  have hself0 : s.heap.set (get_parent se) { info with sockopts := info.sockopts ++ [] }
      = s.heap := by
    simp only [List.append_nil]
    rw [info_sockopts_self, set_self_of_getElem? hinfo]
  have hunl : ∀ (k : Kernel) (h : List SocketInfo),
      g_sockinfo_mutex_unlock { s with g_sockinfo_mutex := true, kernel := k, heap := h }
        = Res.ok () { s with kernel := k, heap := h } := by
    intro k h
    simp only [g_sockinfo_mutex_unlock]
    cases s
    simp_all
  unfold setsockopt
  rw [bind_ok hl, bind_ok (get_active_socket_apply _ _)]
  simp only [hfd]
  by_cases hlev : level = SOL_SOCKET
  · simp only [hlev, if_true, true_and]
    obtain ⟨r, k, hc, ht, hr⟩ := real_setsockopt_step fd SOL_SOCKET optname optval
      { s with g_sockinfo_mutex := true }
    rw [bind_ok hc]
    by_cases hr0 : r = 0
    · simp only [hr0, if_true]
      have hinfo1 : ({ s with g_sockinfo_mutex := true, kernel := k } : State).heap[get_parent se]?
          = some info := hinfo
      rw [bind_ok (update_ok _ hinfo1)]
      have := hunl k (s.heap.set (get_parent se) { info with sockopts := info.sockopts ++
        [{ level := SOL_SOCKET, optname := optname, optval := optval }] })
      rw [bind_ok this]
      refine ⟨0, _, rfl, rfl, ?_⟩
      rw [← hr0]
      exact ht
    · simp only [hr0, if_false]
      have := hunl k s.heap
      have hk : ({ s with g_sockinfo_mutex := true, kernel := k } : State)
          = { s with g_sockinfo_mutex := true, kernel := k, heap := s.heap } := rfl
      rw [hk, bind_ok this]
      refine ⟨r, _, rfl, ?_, ht⟩
      simp only [hr0, and_false, if_false]
      rw [hself0]
  · simp only [hlev, if_false, false_and]
    have := hunl s.kernel s.heap
    have hk : ({ s with g_sockinfo_mutex := true } : State)
        = { s with g_sockinfo_mutex := true, kernel := s.kernel, heap := s.heap } := rfl
    rw [hk, bind_ok this]
    obtain ⟨r, k, hc, ht, hr⟩ := real_setsockopt_step fd level optname optval
      { s with kernel := s.kernel, heap := s.heap }
    refine ⟨r, _, hc, ?_, ht⟩
    simp only [hlev, false_and, if_false]
    rw [hself0]

theorem setsockopt_calls_spec (fd : Int) (se : SocketEntry) :
    ∀ (calls : List SockoptEntry) (s : State) (info : SocketInfo),
      s.g_sockinfo_mutex = false →
      s.g_active_sockets.lookup fd = some se →
      s.heap[get_parent se]? = some info →
      ∃ rets s1, setsockopt_calls fd calls s = Res.ok rets s1 ∧
        s1 = { s with
                 kernel := s1.kernel
                 heap := s.heap.set (get_parent se)
                   { info with sockopts := info.sockopts ++ succeeded_generic calls rets } } := by
  intro calls
  induction calls with
  | nil =>
    intro s info _ _ hinfo
    refine ⟨[], s, rfl, ?_⟩
    simp only [succeeded_generic, List.append_nil]
    rw [info_sockopts_self, set_self_of_getElem? hinfo]
  | cons c rest ih =>
    intro s info hm hfd hinfo
    obtain ⟨r, s', hrun, hs', _⟩ := setsockopt_spec fd c.level c.optname c.optval s se info
      hm hfd hinfo
    have hm' : s'.g_sockinfo_mutex = false := by rw [hs']; exact hm
    have hfd' : s'.g_active_sockets.lookup fd = some se := by rw [hs']; exact hfd
    have hinfo' : s'.heap[get_parent se]? = some { info with sockopts := info.sockopts ++
        (if c.level = SOL_SOCKET ∧ r = 0 then
          [{ level := c.level, optname := c.optname, optval := c.optval }] else []) } := by
      rw [hs']
      exact getElem?_set_of_some hinfo
    obtain ⟨rets, s1, hrun1, hs1⟩ := ih s' _ hm' hfd' hinfo'
    refine ⟨r :: rets, s1, ?_, ?_⟩
    · rw [setsockopt_calls, bind_ok hrun, bind_ok hrun1]
      rfl
    · rw [hs1, hs']
      have hc : ({ level := c.level, optname := c.optname, optval := c.optval } : SockoptEntry)
          = c := by cases c; rfl
      by_cases hcond : c.level = SOL_SOCKET ∧ r = 0
      · have hc' : ({ level := SOL_SOCKET, optname := c.optname, optval := c.optval }
            : SockoptEntry) = c := by rw [← hcond.1]
        simp [succeeded_generic, hcond, hc', List.set_set]
      · simp [succeeded_generic, hcond, List.set_set]

/-- The loop body on a matching path rule whose conversion succeeds: the real
`bind` or `connect` on the formatted path is the next and last call, and the
queue of the record is left as the conversion left it. -/
theorem loop_path_rule (env : Env) (dir : RuleDir) (fd : Int) (addr : sockaddr)
    (addrlen : Int) (se : SocketEntry) (r : UdsmapRule) (rest : List UdsmapRule)
    (s s1 : State) (info info1 : SocketInfo) (p : String)
    (hinfo : s.heap[get_parent se]? = some info)
    (hm : rule_matches env dir addr info.socktype r = true)
    (ha : r.socket_activation = false) (hp : r.socket_path = some p)
    (hconv : sock_make_unix fd s = Res.ok true s1)
    (hinfo1 : s1.heap[get_parent se]? = some info1) :
    ∃ ret s', handle_bind_connect_loop env dir fd addr addrlen (get_parent se) (r :: rest) s
        = Res.ok ret s' ∧
      s'.kernel.trace = s1.kernel.trace ++
        [bind_connect_call dir fd (sockaddr.un (sun_path_of (format_sockpath p
          ((get_addr_str env addr).getD "unknown") (ntohs addr.sin_port)
          (get_sotype info1.socktype)))) sizeof_sockaddr_un ret] ∧
      ∃ info', s'.heap[get_parent se]? = some info' ∧ info'.sockopts = info1.sockopts ∧
        (ret = 0 → info'.rule = some r) := by
  simp only [rule_matches, Bool.and_eq_true, decide_eq_true_eq] at hm
  obtain ⟨⟨h1, h2⟩, h3⟩ := hm
  rw [handle_bind_connect_loop]
  simp only [ne_eq, h1, not_true_eq_false, if_false, h2, Bool.not_true, Bool.false_eq_true]
  rw [bind_ok (deref_ok hinfo)]
  simp only [h3, Bool.not_true, Bool.false_eq_true, if_false, ha, hp]
  rw [bind_ok hconv]
  simp only [Bool.not_true, Bool.false_eq_true, if_false]
  rw [bind_ok (deref_ok hinfo1)]
  obtain ⟨r2, k2, hc2, ht2⟩ := real_bind_connect_step dir fd
    (sockaddr.un (sun_path_of (format_sockpath p ((get_addr_str env addr).getD "unknown")
      (ntohs addr.sin_port) (get_sotype info1.socktype)))) sizeof_sockaddr_un s1
  rw [bind_ok hc2]
  have hinfo2 : ({ s1 with kernel := k2 } : State).heap[get_parent se]? = some info1 := hinfo1
  by_cases hr2 : r2 = 0
  · simp only [hr2, if_true]
    rw [bind_ok (update_ok _ hinfo2)]
    simp only [bind_apply, g_rules_mutex_unlock, g_sockinfo_mutex_unlock, pure_apply]
    refine ⟨0, _, rfl, ?_, _, getElem?_set_of_some hinfo2, rfl, fun _ => rfl⟩
    rw [← hr2]
    exact ht2
  · simp only [hr2, if_false, bind_apply, g_rules_mutex_unlock, g_sockinfo_mutex_unlock,
      pure_apply]
    exact ⟨r2, _, rfl, ht2, info1, hinfo2, rfl, fun h => absurd h hr2⟩

/-- The loop body on a matching rule with external-fd activation, when the
handler returns 0: the flags were copied and the queued options set on the
assigned descriptor in order, then it was duplicated onto the descriptor, and
the queue is empty. -/
theorem loop_activation_rule (env : Env) (dir : RuleDir) (fd : Int) (addr : sockaddr)
    (addrlen : Int) (se : SocketEntry) (r : UdsmapRule) (rest : List UdsmapRule)
    (s s' : State) (info : SocketInfo)
    (hfd : s.g_active_sockets.lookup fd = some se)
    (hinfo : s.heap[get_parent se]? = some info)
    (hm : rule_matches env dir addr info.socktype r = true)
    (ha : r.socket_activation = true)
    (h : handle_bind_connect_loop env dir fd addr addrlen (get_parent se) (r :: rest) s
      = Res.ok 0 s') :
    ∃ nfd fl st, s'.kernel.trace = s.kernel.trace ++
        [Syscall.fcntl_getfd fd fl, Syscall.fcntl_getfl fd st,
         Syscall.fcntl_setfd nfd fl 0, Syscall.fcntl_setfl nfd st 0]
        ++ info.sockopts.map (fun e => Syscall.setsockopt nfd e.level e.optname e.optval 0)
        ++ [Syscall.dup2 nfd fd fd] ∧
      ∃ info', s'.heap[get_parent se]? = some info' ∧ info'.sockopts = [] := by
  simp only [rule_matches, Bool.and_eq_true, decide_eq_true_eq] at hm
  obtain ⟨⟨h1, h2⟩, h3⟩ := hm
  rw [handle_bind_connect_loop] at h
  simp only [ne_eq, h1, not_true_eq_false, if_false, h2, Bool.not_true, Bool.false_eq_true] at h
  rw [bind_ok (deref_ok hinfo)] at h
  simp only [h3, Bool.not_true, Bool.false_eq_true, if_false, ha, if_true] at h
  cases hg : get_systemd_fd_for_rule env r s with
  | halt hh sh =>
    rw [bind_apply, hg] at h
    simp at h
  | ok newfd sa =>
    rw [bind_ok hg] at h
    have hsa := get_systemd_fd_for_rule_frame env r s sa newfd hg
    have hfda : sa.g_active_sockets.lookup fd = some se := by rw [hsa]; exact hfd
    have hinfoa : sa.heap[get_parent se]? = some info := by rw [hsa]; exact hinfo
    have hka : sa.kernel = s.kernel := by rw [hsa]
    obtain ⟨b, sb, q', evs, hrun, hsb, htr, _, _, _, hbt⟩ :=
      set_cached_sockopts_spec fd newfd sa se info hfda hinfoa
    rw [bind_ok hrun] at h
    have hinfob : sb.heap[get_parent se]? = some { info with sockopts := q' } := by
      rw [hsb]
      exact getElem?_set_of_some hinfoa
    cases b with
    | false =>
      simp only [Bool.not_false, if_true, bind_apply, g_rules_mutex_unlock,
        g_sockinfo_mutex_unlock, pure_apply, Res.ok.injEq] at h
      exact absurd h.1 (by decide)
    | true =>
      obtain ⟨hq', fl, st, hev⟩ := hbt rfl
      simp only [Bool.not_true, Bool.false_eq_true, if_false] at h
      obtain ⟨r3, k3, hc3, ht3, hr3⟩ := dup2_step newfd fd sb
      rw [bind_ok hc3] at h
      by_cases h3' : r3 = -1
      · simp only [h3', if_true, bind_apply, g_rules_mutex_unlock,
          g_sockinfo_mutex_unlock, pure_apply, Res.ok.injEq] at h
        exact absurd h.1 (by decide)
      · simp only [h3', if_false] at h
        have h3'' : r3 = fd := by rcases hr3 with hx | hx; exact absurd hx h3'; exact hx
        have hinfo3 : ({ sb with kernel := k3 } : State).heap[get_parent se]?
            = some { info with sockopts := q' } := hinfob
        rw [bind_ok (update_ok _ hinfo3)] at h
        have hinfo4 : ({ sb with
            kernel := k3
            heap := sb.heap.set (get_parent se)
              { info with sockopts := q', addr := addr.sin_addr, port := addr.sin_port } }
            : State).heap[get_parent se]?
            = some { info with sockopts := q', addr := addr.sin_addr,
                               port := addr.sin_port } :=
          getElem?_set_of_some hinfob
        rw [bind_ok (update_ok _ hinfo4)] at h
        simp only [bind_apply, g_sockinfo_mutex_unlock, pure_apply, Res.ok.injEq] at h
        obtain ⟨_, hs⟩ := h
        subst hs
        refine ⟨newfd, fl, st, ?_, _, getElem?_set_of_some hinfo4, hq'⟩
        simp only [ht3, htr, hka, hev, h3'']
        simp

/-- For the IPv6 address [::1]:8080 the text the matcher compares with the
address of a rule is `::`, the text of the sixteen bytes that start at the
flow information, while the textual form of the address is `::1`. -/
theorem get_addr_str_inet6_loopback :
    get_addr_str (libc []) addr6_loopback_8080 = some "::" ∧
    address_text (libc []) addr6_loopback_8080 = some "::1" := by
  decide

/-! ## Replay of the queued options -/

/-- C2 (amended): take a tracked descriptor whose record is not yet converted
and has an empty queue, any sequence of `setsockopt` calls on it, and then a
bind/connect with an internet address whose first matching rule with a path
or external-fd activation is `r`.  When `r` is a path rule and the in-place
conversion succeeds, the handler returns, and what it called is exactly:
`socket(AF_UNIX, ...)` giving the new descriptor, the four `fcntl` calls, a
`setsockopt` on the new descriptor for each call of the sequence that was
made at level `SOL_SOCKET` and returned 0, with the same level, name and
value, in the order of those calls, then `dup2` onto the descriptor and last
the real bind/connect on the UNIX address; the queue is empty afterwards.
When `r` has external-fd activation and the handler returns 0, it called the
four `fcntl` calls, the same `setsockopt` calls on the assigned descriptor
and then `dup2`; the queue is empty afterwards. -/
theorem queued_options_replayed_before_bind_connect (env : Env) (dir : RuleDir) (fd : Int)
    (addr : sockaddr) (addrlen : Int) (s s1 : State) (se : SocketEntry) (info : SocketInfo)
    (calls : List SockoptEntry) (rets : List Int) (rules : List UdsmapRule) (r : UdsmapRule)
    (hfam : addr.sa_family = AF_INET ∨ addr.sa_family = AF_INET6)
    (hm1 : s.g_sockinfo_mutex = false) (hm2 : s.g_rules_mutex = false)
    (hfd : s.g_active_sockets.lookup fd = some se)
    (hinfo : s.heap[get_parent se]? = some info)
    (hfresh : info.is_converted = false) (hq : info.sockopts = [])
    (hcalls : setsockopt_calls fd calls s = Res.ok rets s1)
    (hrules : rules_of env s1 = some rules)
    (hfirst : rules.find? (fun r => rule_matches env dir addr info.socktype r
      && rule_actionable r) = some r) :
    (r.socket_activation = false →
      result (sock_make_unix fd) (locked { s1 with g_rules := some rules }) = some true →
      ∃ ret s2 nfd fl st ua,
        handle_bind_connect env dir fd addr addrlen s1 = Res.ok ret s2 ∧
        s2.kernel.trace = s1.kernel.trace ++
          [Syscall.socket AF_UNIX info.socktype 0 nfd,
           Syscall.fcntl_getfd fd fl, Syscall.fcntl_getfl fd st,
           Syscall.fcntl_setfd nfd fl 0, Syscall.fcntl_setfl nfd st 0]
          ++ (succeeded_generic calls rets).map (fun e =>
              Syscall.setsockopt nfd e.level e.optname e.optval 0)
          ++ [Syscall.dup2 nfd fd fd,
              bind_connect_call dir fd (sockaddr.un ua) sizeof_sockaddr_un ret] ∧
        (s2.heap[get_parent se]?).map SocketInfo.sockopts = some []) ∧
    (r.socket_activation = true →
      ∀ s2, handle_bind_connect env dir fd addr addrlen s1 = Res.ok 0 s2 →
      ∃ nfd fl st,
        s2.kernel.trace = s1.kernel.trace ++
          [Syscall.fcntl_getfd fd fl, Syscall.fcntl_getfl fd st,
           Syscall.fcntl_setfd nfd fl 0, Syscall.fcntl_setfl nfd st 0]
          ++ (succeeded_generic calls rets).map (fun e =>
              Syscall.setsockopt nfd e.level e.optname e.optval 0)
          ++ [Syscall.dup2 nfd fd fd] ∧
        (s2.heap[get_parent se]?).map SocketInfo.sockopts = some []) := by
  obtain ⟨rets', s1', hrun, hs1⟩ := setsockopt_calls_spec fd se calls s info hm1 hfd hinfo
  rw [hcalls] at hrun
  simp only [Res.ok.injEq] at hrun
  obtain ⟨hr, hs⟩ := hrun
  subst hr
  subst hs
  rw [hq, List.nil_append] at hs1
  have hm1' : s1.g_sockinfo_mutex = false := by rw [hs1]; exact hm1
  have hm2' : s1.g_rules_mutex = false := by rw [hs1]; exact hm2
  have hfd' : s1.g_active_sockets.lookup fd = some se := by rw [hs1]; exact hfd
  have hinfo' : s1.heap[get_parent se]?
      = some { info with sockopts := succeeded_generic calls rets } := by
    rw [hs1]
    exact getElem?_set_of_some hinfo
  have hloop := handle_bind_connect_eq_loop env dir fd addr addrlen s1 se rules hfam hm1' hm2'
    hfd' hrules
  have hfdL : (locked { s1 with g_rules := some rules }).g_active_sockets.lookup fd = some se :=
    hfd'
  have hinfoL : (locked { s1 with g_rules := some rules }).heap[get_parent se]?
      = some { info with sockopts := succeeded_generic calls rets } := hinfo'
  have hmatch : rule_matches env dir addr info.socktype r = true ∧ rule_actionable r = true := by
    have := List.find?_some hfirst
    simpa using this
  constructor
  · intro ha hconv
    have hfirstL := loop_first env dir fd addr addrlen (get_parent se)
      (locked { s1 with g_rules := some rules })
      { info with sockopts := succeeded_generic calls rets } hinfoL rules
      (fun _ _ _ => hconv)
    have hfirst' : rules.find? (fun r => rule_matches env dir addr
        ({ info with sockopts := succeeded_generic calls rets } : SocketInfo).socktype r
        && rule_actionable r) = some r := hfirst
    rw [hfirst'] at hfirstL
    obtain ⟨S1, hS1⟩ := result_eq_some hconv
    obtain ⟨b, S1', info1, evs, hrunc, hS1', _, htr, _, _, hsucc⟩ :=
      sock_make_unix_spec fd (locked { s1 with g_rules := some rules }) se
        { info with sockopts := succeeded_generic calls rets } hfdL hinfoL
    rw [hS1] at hrunc
    simp only [Res.ok.injEq] at hrunc
    obtain ⟨hb, hS⟩ := hrunc
    subst hb
    subst hS
    obtain ⟨hq1, nfd, fl, st, hevs⟩ := hsucc rfl hfresh
    have hinfo1 : S1.heap[get_parent se]? = some info1 := by
      rw [hS1']
      exact getElem?_set_of_some hinfoL
    have hp : ∃ p, r.socket_path = some p := by
      have := hmatch.2
      simp only [rule_actionable, ha, Bool.false_or] at this
      exact Option.isSome_iff_exists.mp this
    obtain ⟨p, hp⟩ := hp
    obtain ⟨ret, s2, hrun2, htr2, info2, hinfo2, hq2, _⟩ :=
      loop_path_rule env dir fd addr addrlen se r [] (locked { s1 with g_rules := some rules })
        S1 { info with sockopts := succeeded_generic calls rets } info1 p hinfoL hmatch.1 ha hp
        hS1 hinfo1
    refine ⟨ret, s2, nfd, fl, st, sun_path_of (format_sockpath p
      ((get_addr_str env addr).getD "unknown") (ntohs addr.sin_port)
      (get_sotype info1.socktype)), ?_, ?_, ?_⟩
    · rw [hloop, hfirstL]
      exact hrun2
    · rw [htr2, htr, hevs]
      simp [locked]
    · rw [hinfo2]
      simp [hq2, hq1]
  · intro ha s2 hret
    rw [hloop] at hret
    have hfirstL := loop_first env dir fd addr addrlen (get_parent se)
      (locked { s1 with g_rules := some rules })
      { info with sockopts := succeeded_generic calls rets } hinfoL rules
      (fun r' hr' ha' => by
        have hfirst' : rules.find? (fun r => rule_matches env dir addr
            ({ info with sockopts := succeeded_generic calls rets } : SocketInfo).socktype r
            && rule_actionable r) = some r := hfirst
        rw [hfirst'] at hr'
        simp only [Option.some.injEq] at hr'
        rw [← hr', ha] at ha'
        exact absurd ha' (by decide))
    have hfirst' : rules.find? (fun r => rule_matches env dir addr
        ({ info with sockopts := succeeded_generic calls rets } : SocketInfo).socktype r
        && rule_actionable r) = some r := hfirst
    rw [hfirst'] at hfirstL
    rw [hfirstL] at hret
    obtain ⟨nfd, fl, st, htr, info', hinfo2, hq2⟩ :=
      loop_activation_rule env dir fd addr addrlen se r []
        (locked { s1 with g_rules := some rules }) s2
        { info with sockopts := succeeded_generic calls rets } hfdL hinfoL hmatch.1 ha hret
    refine ⟨nfd, fl, st, ?_, ?_⟩
    · rw [htr]
      simp [locked]
    · rw [hinfo2]
      simp [hq2]

/-- C2, an instance: `SO_REUSEADDR` (succeeds), `TCP_NODELAY` at level
`IPPROTO_TCP` (succeeds), `SO_RCVBUF` (fails) and `SO_KEEPALIVE` (succeeds) on
the fresh socket 3, then `bind(3, 0.0.0.0:8080)` under the rule of S1. -/
theorem queued_options_replayed_before_bind_connect_witness :
    ∃ ret s2 nfd fl st ua,
      handle_bind_connect (libc [rule_S1]) RuleDir.INCOMING 3 addr_any_8080 16
        (exec (setsockopt_calls 3 calls_example) proc_socket_third_fails) = Res.ok ret s2 ∧
      s2.kernel.trace
        = (exec (setsockopt_calls 3 calls_example) proc_socket_third_fails).kernel.trace ++
          [Syscall.socket AF_UNIX SOCK_STREAM 0 nfd,
           Syscall.fcntl_getfd 3 fl, Syscall.fcntl_getfl 3 st,
           Syscall.fcntl_setfd nfd fl 0, Syscall.fcntl_setfl nfd st 0]
          ++ (succeeded_generic calls_example [0, 0, -1, 0]).map (fun e =>
              Syscall.setsockopt nfd e.level e.optname e.optval 0)
          ++ [Syscall.dup2 nfd 3 3,
              bind_connect_call RuleDir.INCOMING 3 (sockaddr.un ua) sizeof_sockaddr_un ret] ∧
      (s2.heap[get_parent (SocketEntry.owner 0)]?).map SocketInfo.sockopts = some [] :=
  (queued_options_replayed_before_bind_connect (libc [rule_S1]) RuleDir.INCOMING 3
    addr_any_8080 16 proc_socket_third_fails
    (exec (setsockopt_calls 3 calls_example) proc_socket_third_fails) (SocketEntry.owner 0)
    { socktype := SOCK_STREAM, protocol := 0, addr := [0, 0, 0, 0], port := [0, 0] }
    calls_example [0, 0, -1, 0] [rule_S1] rule_S1
    (by decide) (by decide) (by decide) (by decide!) (by decide!) (by decide) (by decide)
    (by decide!) (by decide!) (by decide!)).1 (by decide) (by decide!)

/-- C2 as stated fails.  First: a matched `bind` whose real `bind` was
refused has converted the socket; `SO_REUSEADDR` is then set with success and
queued; the next matched `bind` returns 0 having made the real `bind` only,
and the queue still holds the option.  Second: with the option queued on a
fresh socket and two qualifying path rules, the first conversion replays the
option and then fails in `dup2`; the conversion for the second rule creates
another socket, sets no option on it, and the matched `bind` returns 0. -/
theorem queued_options_not_replayed :
    proc_retry.heap.map SocketInfo.is_converted = [true] ∧
    proc_retry.heap.map SocketInfo.sockopts
      = [[{ level := SOL_SOCKET, optname := 2, optval := [1, 0, 0, 0] }]] ∧
    result (bind (libc [rule_S1]) 3 addr_any_8080 16) proc_retry = some 0 ∧
    (exec (bind (libc [rule_S1]) 3 addr_any_8080 16) proc_retry).kernel.trace.drop
        proc_retry.kernel.trace.length
      = [Syscall.bind 3 (sockaddr.un "/run/app.sock") sizeof_sockaddr_un 0] ∧
    (exec (bind (libc [rule_S1]) 3 addr_any_8080 16) proc_retry).heap.map SocketInfo.sockopts
      = [[{ level := SOL_SOCKET, optname := 2, optval := [1, 0, 0, 0] }]] ∧
    proc_option_set.heap.map SocketInfo.sockopts
      = [[{ level := SOL_SOCKET, optname := 2, optval := [1, 0, 0, 0] }]] ∧
    result (bind (libc [rule_a, rule_b]) 3 addr_any_8080 16) proc_option_set = some 0 ∧
    (exec (bind (libc [rule_a, rule_b]) 3 addr_any_8080 16) proc_option_set).kernel.trace.drop
        proc_option_set.kernel.trace.length
      = [Syscall.socket AF_UNIX SOCK_STREAM 0 4,
         Syscall.fcntl_getfd 3 0, Syscall.fcntl_getfl 3 0,
         Syscall.fcntl_setfd 4 0 0, Syscall.fcntl_setfl 4 0 0,
         Syscall.setsockopt 4 SOL_SOCKET 2 [1, 0, 0, 0] 0,
         Syscall.dup2 4 3 (-1), Syscall.close 4 0,
         Syscall.socket AF_UNIX SOCK_STREAM 0 4,
         Syscall.fcntl_getfd 3 0, Syscall.fcntl_getfl 3 0,
         Syscall.fcntl_setfd 4 0 0, Syscall.fcntl_setfl 4 0 0,
         Syscall.dup2 4 3 3,
         Syscall.bind 3 (sockaddr.un "/run/b.sock") sizeof_sockaddr_un 0] := by
  decide!

/-! ## The address reported by `getsockname` -/

/-- For an `AF_INET6` caller the four bytes the handler caches as the address
are those at the offset of `sin_addr`, the flow information: after a
successful path-rule `bind` to [2001:db8::1]:8080, `getsockname` reports
0.0.0.0:8080. -/
theorem getsockname_inet6_reports_flow_information :
    result (bind (libc [rule_S1]) 3 addr6_2001_db8_1_8080 28)
      (exec (socket AF_INET6 SOCK_STREAM 0) proc0) = some 0 ∧
    proc_bound6.kernel.trace.getLast?
      = some (Syscall.bind 3 (sockaddr.un "/run/app.sock") sizeof_sockaddr_un 0) ∧
    addr6_2001_db8_1_8080.sin6_addr = [32, 1, 13, 184, 0, 0, 0, 0, 0, 0, 0, 0, 0, 0, 0, 1] ∧
    result (getsockname 3 empty_buf) proc_bound6
      = some (0, (sockaddr.raw AF_INET [31, 144, 0, 0, 0, 0], sizeof_sockaddr_in)) := by
  decide!

/-! ## The mutexes of the handler -/

/-- Which mutexes the loop of the handler leaves held, whichever way it
returns: never the socket-table mutex, and the rule-store mutex only when it
returned 0 after recording a rule with external-fd activation. -/
theorem loop_mutexes (env : Env) (dir : RuleDir) (fd : Int) (addr : sockaddr)
    (addrlen : Int) (se : SocketEntry) :
    ∀ (rules : List UdsmapRule) (s : State) (info : SocketInfo) (ret : Int) (s' : State),
      s.g_active_sockets.lookup fd = some se →
      s.heap[get_parent se]? = some info →
      handle_bind_connect_loop env dir fd addr addrlen (get_parent se) rules s = Res.ok ret s' →
      s'.g_sockinfo_mutex = false ∧
      (s'.g_rules_mutex = false ∨
        (ret = 0 ∧ s'.g_rules_mutex = s.g_rules_mutex ∧
          ∃ info' r, s'.heap[get_parent se]? = some info' ∧ info'.rule = some r ∧
            r.socket_activation = true)) := by
  intro rules
  induction rules with
  | nil =>
    intro s info ret s' hfd hinfo h
    obtain ⟨r, k, hc, _⟩ := real_bind_connect_step dir fd addr addrlen
      { s with g_rules_mutex := false, g_sockinfo_mutex := false }
    have hu1 : g_rules_mutex_unlock s = Res.ok () { s with g_rules_mutex := false } := rfl
    have hu2 : g_sockinfo_mutex_unlock { s with g_rules_mutex := false }
        = Res.ok () { s with g_rules_mutex := false, g_sockinfo_mutex := false } := rfl
    rw [handle_bind_connect_loop, bind_ok hu1, bind_ok hu2, hc] at h
    simp only [Res.ok.injEq] at h
    obtain ⟨_, hs⟩ := h
    subst hs
    exact ⟨rfl, Or.inl rfl⟩
  | cons r rest ih =>
    intro s info ret s' hfd hinfo h
    rw [handle_bind_connect_loop] at h
    by_cases h1 : r.direction = dir
    swap
    · simp only [ne_eq, h1, not_false_eq_true, if_true] at h
      exact ih s info ret s' hfd hinfo h
    cases h2 : match_sockaddr_in env addr r with
    | false =>
      simp only [ne_eq, h1, not_true_eq_false, if_false, h2, Bool.not_false, if_true] at h
      exact ih s info ret s' hfd hinfo h
    | true =>
    simp only [ne_eq, h1, not_true_eq_false, if_false, h2, Bool.not_true, Bool.false_eq_true] at h
    rw [bind_ok (deref_ok hinfo)] at h
    cases h3 : match_sotype info.socktype r with
    | false =>
      simp only [h3, Bool.not_false, if_true] at h
      exact ih s info ret s' hfd hinfo h
    | true =>
    simp only [h3, Bool.not_true, Bool.false_eq_true, if_false] at h
    cases ha : r.socket_activation with
    | true =>
      simp only [ha, if_true] at h
      cases hg : get_systemd_fd_for_rule env r s with
      | halt hh sh =>
        rw [bind_apply, hg] at h
        simp at h
      | ok newfd sa =>
        rw [bind_ok hg] at h
        have hsa := get_systemd_fd_for_rule_frame env r s sa newfd hg
        have hfda : sa.g_active_sockets.lookup fd = some se := by rw [hsa]; exact hfd
        have hinfoa : sa.heap[get_parent se]? = some info := by rw [hsa]; exact hinfo
        have hma : sa.g_rules_mutex = s.g_rules_mutex := by rw [hsa]
        obtain ⟨b, sb, q', evs, hrun, hsb, _, _, _, _, _⟩ :=
          set_cached_sockopts_spec fd newfd sa se info hfda hinfoa
        rw [bind_ok hrun] at h
        have hinfob : sb.heap[get_parent se]? = some { info with sockopts := q' } := by
          rw [hsb]
          exact getElem?_set_of_some hinfoa
        have hmb : sb.g_rules_mutex = s.g_rules_mutex := by rw [hsb]; exact hma
        cases b with
        | false =>
          simp only [Bool.not_false, if_true, bind_apply, g_rules_mutex_unlock,
            g_sockinfo_mutex_unlock, pure_apply, Res.ok.injEq] at h
          obtain ⟨_, hs⟩ := h
          subst hs
          exact ⟨rfl, Or.inl rfl⟩
        | true =>
          simp only [Bool.not_true, Bool.false_eq_true, if_false] at h
          obtain ⟨r3, k3, hc3, _, _⟩ := dup2_step newfd fd sb
          rw [bind_ok hc3] at h
          by_cases h3' : r3 = -1
          · simp only [h3', if_true, bind_apply, g_rules_mutex_unlock,
              g_sockinfo_mutex_unlock, pure_apply, Res.ok.injEq] at h
            obtain ⟨_, hs⟩ := h
            subst hs
            exact ⟨rfl, Or.inl rfl⟩
          · simp only [h3', if_false] at h
            have hinfo3 : ({ sb with kernel := k3 } : State).heap[get_parent se]?
                = some { info with sockopts := q' } := hinfob
            rw [bind_ok (update_ok _ hinfo3)] at h
            have hinfo4 : ({ sb with
                kernel := k3
                heap := sb.heap.set (get_parent se)
                  { info with sockopts := q', addr := addr.sin_addr, port := addr.sin_port } }
                : State).heap[get_parent se]?
                = some { info with sockopts := q', addr := addr.sin_addr,
                                   port := addr.sin_port } :=
              getElem?_set_of_some hinfob
            rw [bind_ok (update_ok _ hinfo4)] at h
            simp only [bind_apply, g_sockinfo_mutex_unlock, pure_apply, Res.ok.injEq] at h
            obtain ⟨hr, hs⟩ := h
            subst hs
            exact ⟨rfl, Or.inr ⟨hr.symm, hmb, _, r, getElem?_set_of_some hinfo4, rfl, ha⟩⟩
    | false =>
      simp only [ha, Bool.false_eq_true, if_false] at h
      cases hp : r.socket_path with
      | none =>
        simp only [hp] at h
        exact ih s info ret s' hfd hinfo h
      | some p =>
        simp only [hp] at h
        obtain ⟨b, s1, info1, evs, hrun, hs1, _, _, _, _, _⟩ :=
          sock_make_unix_spec fd s se info hfd hinfo
        rw [bind_ok hrun] at h
        have hinfo1 : s1.heap[get_parent se]? = some info1 := by
          rw [hs1]
          exact getElem?_set_of_some hinfo
        have htab1 : s1.g_active_sockets = s.g_active_sockets := by rw [hs1]
        have hm1 : s1.g_rules_mutex = s.g_rules_mutex := by rw [hs1]
        cases b with
        | false =>
          simp only [Bool.not_false, if_true] at h
          have := ih s1 info1 ret s' (by rw [htab1]; exact hfd) hinfo1 h
          rw [hm1] at this
          exact this
        | true =>
          simp only [Bool.not_true, Bool.false_eq_true, if_false] at h
          rw [bind_ok (deref_ok hinfo1)] at h
          obtain ⟨r2, k2, hc2, _⟩ := real_bind_connect_step dir fd
            (sockaddr.un (sun_path_of (format_sockpath p ((get_addr_str env addr).getD "unknown")
              (ntohs addr.sin_port) (get_sotype info1.socktype)))) sizeof_sockaddr_un s1
          rw [bind_ok hc2] at h
          have hinfo2 : ({ s1 with kernel := k2 } : State).heap[get_parent se]? = some info1 :=
            hinfo1
          by_cases hr2 : r2 = 0
          · simp only [hr2, if_true] at h
            rw [bind_ok (update_ok _ hinfo2)] at h
            simp only [bind_apply, g_rules_mutex_unlock, g_sockinfo_mutex_unlock, pure_apply,
              Res.ok.injEq] at h
            obtain ⟨_, hs⟩ := h
            subst hs
            exact ⟨rfl, Or.inl rfl⟩
          · simp only [hr2, if_false, bind_apply, g_rules_mutex_unlock,
              g_sockinfo_mutex_unlock, pure_apply, Res.ok.injEq] at h
            obtain ⟨_, hs⟩ := h
            subst hs
            exact ⟨rfl, Or.inl rfl⟩

theorem bind_halt {α β : Type} {m : M α} {f : α → M β} {s s' : State} {e : Halt}
    (h : m s = Res.halt e s') : (m >>= f) s = Res.halt e s' := by
  rw [bind_apply, h]

theorem rules_of_none_init {env : Env} {s : State} (h : rules_of env s = none) :
    init_rules env s = Res.halt Halt.exit s := by
  unfold rules_of at h
  unfold init_rules
  cases hg : s.g_rules with
  | some r => rw [hg] at h; simp at h
  | none =>
    rw [hg] at h
    simp only [Option.isSome_none, Bool.false_eq_true, if_false]
    cases hf : env.IP2UNIX_RULE_FILE with
    | none => rfl
    | some f =>
      simp [hf] at h
      simp [h]

/-- Every return of the handler that started with both mutexes free leaves
the socket-table mutex free, and leaves the rule-store mutex free unless the
handler returned 0 after recording a rule with external-fd activation. -/
theorem handle_bind_connect_mutexes (env : Env) (dir : RuleDir) (fd : Int) (addr : sockaddr)
    (addrlen : Int) (s s' : State) (ret : Int)
    (hm1 : s.g_sockinfo_mutex = false) (hm2 : s.g_rules_mutex = false)
    (hheap : ∀ se, s.g_active_sockets.lookup fd = some se → (s.heap[get_parent se]?).isSome)
    (h : handle_bind_connect env dir fd addr addrlen s = Res.ok ret s') :
    s'.g_sockinfo_mutex = false ∧
    (s'.g_rules_mutex = false ∨
      (ret = 0 ∧ ∃ se info' r, s.g_active_sockets.lookup fd = some se ∧
        s'.heap[get_parent se]? = some info' ∧ info'.rule = some r ∧
        r.socket_activation = true)) := by
  by_cases hfam : addr.sa_family ≠ AF_INET ∧ addr.sa_family ≠ AF_INET6
  · unfold handle_bind_connect at h
    rw [if_pos hfam] at h
    obtain ⟨r, k, hc, _⟩ := real_bind_connect_step dir fd addr addrlen s
    rw [hc] at h
    simp only [Res.ok.injEq] at h
    obtain ⟨_, hs⟩ := h
    subst hs
    exact ⟨hm1, Or.inl hm2⟩
  · have hfam' : addr.sa_family = AF_INET ∨ addr.sa_family = AF_INET6 := by
      by_contra hcon
      simp only [not_or] at hcon
      exact hfam hcon
    cases hfd : s.g_active_sockets.lookup fd with
    | none =>
      unfold handle_bind_connect at h
      rw [if_neg hfam] at h
      have hl : g_sockinfo_mutex_lock s = Res.ok () { s with g_sockinfo_mutex := true } := by
        simp [g_sockinfo_mutex_lock, hm1]
      rw [bind_ok hl, bind_ok (get_active_socket_apply _ _)] at h
      simp only [hfd] at h
      have hu : g_sockinfo_mutex_unlock { s with g_sockinfo_mutex := true }
          = Res.ok () { s with g_sockinfo_mutex := false } := rfl
      rw [bind_ok hu] at h
      obtain ⟨r, k, hc, _⟩ := real_bind_connect_step dir fd addr addrlen
        { s with g_sockinfo_mutex := false }
      rw [hc] at h
      simp only [Res.ok.injEq] at h
      obtain ⟨_, hs⟩ := h
      subst hs
      exact ⟨rfl, Or.inl hm2⟩
    | some se =>
      cases hr : rules_of env s with
      | none =>
        exfalso
        unfold handle_bind_connect at h
        rw [if_neg hfam] at h
        have hl : g_sockinfo_mutex_lock s = Res.ok () { s with g_sockinfo_mutex := true } := by
          simp [g_sockinfo_mutex_lock, hm1]
        rw [bind_ok hl, bind_ok (get_active_socket_apply _ _)] at h
        simp only [hfd] at h
        have h2 : g_rules_mutex_lock { s with g_sockinfo_mutex := true }
            = Res.ok () { s with g_sockinfo_mutex := true, g_rules_mutex := true } := by
          simp [g_rules_mutex_lock, hm2]
        have h3 : rules_of env { s with g_sockinfo_mutex := true, g_rules_mutex := true }
            = none := hr
        rw [bind_ok h2, bind_halt (rules_of_none_init h3)] at h
        simp at h
      | some rules =>
        obtain ⟨info, hinfo⟩ := Option.isSome_iff_exists.mp (hheap se hfd)
        rw [handle_bind_connect_eq_loop env dir fd addr addrlen s se rules hfam' hm1 hm2 hfd
          hr] at h
        have hfdL : (locked { s with g_rules := some rules }).g_active_sockets.lookup fd
            = some se := hfd
        have hinfoL : (locked { s with g_rules := some rules }).heap[get_parent se]?
            = some info := hinfo
        obtain ⟨hmf, hmr⟩ := loop_mutexes env dir fd addr addrlen se rules
          (locked { s with g_rules := some rules }) info ret s' hfdL hinfoL h
        refine ⟨hmf, ?_⟩
        rcases hmr with hmr | ⟨h0, _, info', r, hi, hrule, hact⟩
        · exact Or.inl hmr
        · exact Or.inr ⟨h0, se, info', r, rfl, hi, hrule, hact⟩

/-- C11: in scenario S6 both mutexes are free when `bind(4, 0.0.0.0:80)` is
called; the bind matches the rule with external-fd activation and returns 0
with the socket-table mutex free and the rule-store mutex still held.  The
next bind or connect on a tracked descriptor, the same one or a new socket,
then never returns: it stops at the rule-store mutex. -/
theorem activation_success_keeps_rules_mutex :
    proc_supervised_socket.g_sockinfo_mutex = false ∧
    proc_supervised_socket.g_rules_mutex = false ∧
    result (bind (libc [rule_S6]) 4 addr_any_80 16) proc_supervised_socket = some 0 ∧
    proc_activated.kernel.trace.getLast? = some (Syscall.dup2 3 4 4) ∧
    proc_activated.g_sockinfo_mutex = false ∧
    proc_activated.g_rules_mutex = true ∧
    (∃ s', bind (libc [rule_S6]) 4 addr_any_80 16 proc_activated
      = Res.halt Halt.deadlock s') ∧
    result (socket AF_INET SOCK_STREAM 0) proc_activated = some 5 ∧
    (∃ s', connect (libc [rule_S6]) 5 addr_any_8080 16
        (exec (socket AF_INET SOCK_STREAM 0) proc_activated)
      = Res.halt Halt.deadlock s') := by
  refine ⟨by decide!, by decide!, by decide!, by decide!, by decide!, by decide!,
    ⟨exec (bind (libc [rule_S6]) 4 addr_any_80 16) proc_activated, by decide!⟩,
    by decide!,
    ⟨exec (connect (libc [rule_S6]) 5 addr_any_8080 16)
      (exec (socket AF_INET SOCK_STREAM 0) proc_activated), by decide!⟩⟩

end Ip2unix
